import Mathlib

/-!
Verification of the MISMO XSD → RDF/OWL Turtle transformer
(`src/ontology/transform_mismo_xsd.py`, class `MISMOXSDTransformer`).

The development shallowly embeds the transformer: the parsed XSD tree is
modelled by `XsdElement` (one record per `xsd:simpleType` / `xsd:complexType`
node, holding the structural facts the Python code queries through XPath),
the registry built by `analyze_xsd_structure` is an insertion-ordered
association list, and the Turtle statements produced by the emitters are
modelled by the `Stmt` inductive, one constructor per f-string template of
the source.  String-level helpers (`_format_comment_for_ttl`,
`_format_type_reference`, `to_camel_case`, ...) are translated to executable
functions on `String`.

Notes on fidelity:
- ElementTree truthiness of childless nodes is not modelled; a type stored in
  the registry is treated as a present element.
- Python `str.strip` is modelled for the ASCII whitespace characters.
- `transformed_types` is a Python set; it is modelled as an insertion-ordered
  list, which only affects the textual order of the post-pass statements.
-/

/-! ## String helpers -/

/-- ASCII whitespace, as stripped by Python `str.strip()`. -/
def pyIsSpace (c : Char) : Bool :=
  c = ' ' || c = '\t' || c = '\n' || c = '\r' || c = '\x0b' || c = '\x0c'

/-- Python `str.strip()` (ASCII whitespace). -/
def pyStrip (s : String) : String :=
  String.mk (((s.toList.dropWhile pyIsSpace).reverse.dropWhile pyIsSpace).reverse)

/-- Python `comment.replace(chr(34), chr(92) ++ chr(34))`: escape every
double quote with a backslash. -/
def escapeQuotes : List Char → List Char
  | [] => []
  | c :: rest => if c = '"' then '\\' :: '"' :: escapeQuotes rest else c :: escapeQuotes rest

/-- Helper for `quotesEscaped`: every double quote is preceded by a
backslash, given the character `prev` before the list. -/
def quotesEscapedAux (prev : Char) : List Char → Bool
  | [] => true
  | c :: rest => (!(c = '"') || (prev = '\\')) && quotesEscapedAux c rest

/-- Every double quote occurring in the list is immediately preceded by a
backslash (and the list does not start with a bare quote). -/
def quotesEscaped (l : List Char) : Bool :=
  match l with
  | [] => true
  | c :: rest => !(c = '"') && quotesEscapedAux c rest

/-- `MISMOXSDTransformer._format_comment_for_ttl`: empty comments render as
the empty string; otherwise the comment is stripped, its quotes escaped, and
it is rendered triple-quoted when the stripped text contains a newline,
single-line quoted otherwise. -/
def format_comment_for_ttl (comment : String) : String :=
  if comment = "" then ""
  else
    let c := pyStrip comment
    let escaped := String.mk (escapeQuotes c.toList)
    if c.toList.contains '\n' then "\"\"\"\n" ++ escaped ++ "\n\"\"\""
    else "\"" ++ escaped ++ "\""

/-- Wrap a string in double quotes, as the direct `rdfs:label` templates of
the source do. -/
def quoteStr (s : String) : String := "\"" ++ s ++ "\""

/-- Substring check on character lists (Python `in` on strings). -/
def listContainsSub (sub : List Char) : List Char → Bool
  | [] => sub.isEmpty
  | c :: rest => sub.isPrefixOf (c :: rest) || listContainsSub sub rest

/-- Python `sub in s` for strings. -/
def strContains (s sub : String) : Bool := listContainsSub sub.toList s.toList

/-- Python `str.endswith` (structural recursion, so that it evaluates in
the kernel). -/
def strEndsWith (s suffix : String) : Bool := List.isSuffixOf suffix.toList s.toList

/-- Python `str.startswith` (structural recursion). -/
def strStartsWith (s pre : String) : Bool := List.isPrefixOf pre.toList s.toList

/-- Python `str.lower()` (ASCII, structural recursion). -/
def pyLowerStr (s : String) : String := String.mk (s.toList.map Char.toLower)

/-- `MISMOXSDTransformer._format_type_reference`: keep references that carry
a namespace, give the mismo namespace to the rest. -/
def format_type_reference (type_name : String) : String :=
  if type_name = "" then type_name
  else if strContains type_name ":" then type_name
  else "mismo:" ++ type_name

/-- Python `str.split()` with no argument: split on whitespace runs,
dropping empty pieces. -/
def splitWs (s : String) : List String := (s.split pyIsSpace).filter (· ≠ "")

/-- Python `str.capitalize()` (ASCII): first character upper, rest lower. -/
def pyCapitalize (s : String) : String :=
  match s.toList with
  | [] => ""
  | c :: rest => String.mk (c.toUpper :: rest.map Char.toLower)

/-- `MISMOXSDTransformer.to_camel_case`. -/
def to_camel_case (name : String) : String :=
  if name = "" then name
  else
    match name.splitOn "_" with
    | [] => ""
    | w :: rest => pyLowerStr w ++ String.join (rest.map pyCapitalize)

/-- Python `name[0].lower() + name[1:]`, used for Pattern 006 property names. -/
def lower_first (s : String) : String :=
  match s.toList with
  | [] => s
  | c :: rest => String.mk (c.toLower :: rest)

/-- Python `name.lower().replace(chr(95), chr(32))`, used for Pattern 006 labels. -/
def lower_spaced (s : String) : String :=
  String.mk ((pyLowerStr s).toList.map fun c => if c = '_' then ' ' else c)

/-- Python `str.isupper()` (ASCII): has at least one letter and no lowercase
letter. -/
def pyIsUpper (s : String) : Bool :=
  s.toList.any Char.isAlpha && s.toList.all fun c => !c.isAlpha || c.isUpper

/-- Helper for `pyTitle`: the flag records whether the previous character was
a letter. -/
def pyTitleGo (prevAlpha : Bool) : List Char → List Char
  | [] => []
  | c :: rest =>
    if c.isAlpha then
      (if prevAlpha then c.toLower else c.toUpper) :: pyTitleGo true rest
    else c :: pyTitleGo false rest

/-- Python `str.title()` (ASCII). -/
def pyTitle (s : String) : String := String.mk (pyTitleGo false s.toList)

/-- Python truthiness for optional strings: `None` and the empty string are
falsy. -/
def truthy : Option String → Option String
  | some s => if s = "" then none else some s
  | none => none

/-- Python `s[:-1]`. -/
def pyDropLast (s : String) : String := String.mk s.toList.dropLast

/-! ## Data model of the parsed schema -/

/-- Kind of a top-level schema node (`element.tag` suffix). -/
inductive Tag where
  | simpleType
  | complexType
  | other
  deriving Repr, DecidableEq

/-- One `xsd:enumeration` facet: its `value` attribute and the text of its
documentation node, when present. -/
structure EnumFacet where
  value : String
  doc : Option String
  deriving Repr, DecidableEq

/-- The `xsd:restriction` node of a simple type: its `base` attribute, the
`value` of an `xsd:maxLength` facet, and its enumeration facets. -/
structure RestrictionInfo where
  base : Option String
  maxLengthVal : Option String
  enums : List EnumFacet
  deriving Repr, DecidableEq

/-- The `xsd:union` node of a simple type. -/
structure UnionInfo where
  memberTypes : Option String
  deriving Repr, DecidableEq

/-- The `xsd:any` node of a complex type: its `namespace` attribute. -/
structure AnyInfo where
  namespaceAttr : Option String
  deriving Repr, DecidableEq

/-- An `xsd:attribute` declaration. -/
structure AttrDecl where
  name : Option String
  type : Option String
  doc : Option String
  deriving Repr, DecidableEq

/-- An `xsd:element` child of an `xsd:sequence`. -/
structure ChildElem where
  name : Option String
  type : Option String
  maxOccurs : Option String
  doc : Option String
  deriving Repr, DecidableEq

/-- The `xsd:extension` node under `xsd:simpleContent`. -/
structure ExtensionInfo where
  base : Option String
  attrs : List AttrDecl
  deriving Repr, DecidableEq

/-- The `xsd:simpleContent` node of a complex type. -/
structure SimpleContentInfo where
  ext : Option ExtensionInfo
  deriving Repr, DecidableEq

/-- A named top-level schema type node, with the structural facts the Python
code queries through its XPath `find` / `findall` calls. -/
structure XsdElement where
  tag : Tag
  name : Option String
  doc : Option String
  unionFacet : Option UnionInfo
  restrictionFacet : Option RestrictionInfo
  anyFacet : Option AnyInfo
  simpleContent : Option SimpleContentInfo
  seqElems : Option (List ChildElem)
  attrs : List AttrDecl
  attrGroupRefs : List String
  deriving Repr, DecidableEq

/-- A `complex_type_info` registry entry. -/
structure TypeInfo where
  is_owl_class : Bool
  comment : String
  element : XsdElement
  deriving Repr, DecidableEq

/-- A `hierarchy_data` entry for one contained element reference
(`name` / `type` / `max_occurs` dictionary of the source). -/
structure ContainedInfo where
  name : String
  type : String
  max_occurs : String
  deriving Repr, DecidableEq

/-- Python dict lookup (keys are unique in the modelled dicts). -/
def lookupDict {α : Type} (l : List (String × α)) (k : String) : Option α :=
  (l.find? fun p => p.1 == k).map (·.2)

/-- Python dict assignment: replace the value in place when the key exists,
append otherwise (insertion order preserved). -/
def dictInsert {α : Type} (l : List (String × α)) (k : String) (v : α) : List (String × α) :=
  if l.any (fun p => p.1 == k) then l.map (fun p => if p.1 == k then (k, v) else p)
  else l ++ [(k, v)]

/-! ## Registry and containment graph construction -/

/-- One assignment step of `analyze_xsd_structure` (types without a truthy
name are skipped). -/
def analyze_step (is_cls : Bool) (defaultText : String)
    (acc : List (String × TypeInfo)) (e : XsdElement) : List (String × TypeInfo) :=
  match truthy e.name with
  | none => acc
  | some n =>
    dictInsert acc n
      { is_owl_class := is_cls, comment := e.doc.getD (defaultText ++ n), element := e }

/-- `MISMOXSDTransformer.analyze_xsd_structure`: catalog every named complex
type (as owl class) and then every named simple type (as datatype). -/
def analyze_xsd_structure (complexTypes simpleTypes : List XsdElement) :
    List (String × TypeInfo) :=
  simpleTypes.foldl (analyze_step false "Simple type: ")
    (complexTypes.foldl (analyze_step true "Complex type: ") [])

/-- `MISMOXSDTransformer.build_hierarchy_data`: for each class-like type,
record each sequence child whose truthy `type` resolves to a class-like
registry entry, with `maxOccurs` defaulting to the bounded value. -/
def build_hierarchy_data (cti : List (String × TypeInfo)) :
    List (String × List ContainedInfo) :=
  cti.foldl
    (fun hd pr =>
      if pr.2.is_owl_class then
        let contained := (pr.2.element.seqElems.getD []).filterMap fun el =>
          match truthy el.name, truthy el.type with
          | some en, some et =>
            match lookupDict cti et with
            | some ti =>
              if ti.is_owl_class then
                some { name := en, type := et, max_occurs := el.maxOccurs.getD "1" }
              else none
            | none => none
          | _, _ => none
        if contained.isEmpty then hd else dictInsert hd pr.1 contained
      else hd)
    []

/-! ## Inheritance resolution -/

/-- Inner loop of `get_parent_types` for one registry parent. -/
def gpt_step (element_name : String) (parents : List String)
    (pt : String × List ContainedInfo) : List String :=
  pt.2.foldl
    (fun acc c =>
      if (c.name == element_name || c.type == element_name) && !(acc.contains pt.1) then
        acc ++ [pt.1]
      else acc)
    parents

/-- `MISMOXSDTransformer.get_parent_types`: all parents that contain the
element, by element name or by referenced type, without duplicates. -/
def get_parent_types (hd : List (String × List ContainedInfo)) (element_name : String) :
    List String :=
  hd.foldl (gpt_step element_name) []

/-- Inner loop of `determine_collection_parents` for one registry parent. -/
def dcp_step (collection_name : String) (parents : List String)
    (pt : String × List ContainedInfo) : List String :=
  pt.2.foldl
    (fun acc c =>
      if c.name == collection_name then
        (if acc.contains pt.1 then acc else acc ++ [pt.1])
      else if !(c.type == "") && c.type == collection_name then
        (if acc.contains pt.1 then acc else acc ++ [pt.1])
      else acc)
    parents

/-- `MISMOXSDTransformer._determine_collection_parents`.  The block that
would adopt a root container for top-level collections is commented out in
the source, so only the containment scan remains. -/
def determine_collection_parents (hd : List (String × List ContainedInfo))
    (collection_name : String) : List String :=
  hd.foldl (dcp_step collection_name) []

/-- `MISMOXSDTransformer._is_top_level_collection`: not contained (by
element name) in any other type. -/
def is_top_level_collection (hd : List (String × List ContainedInfo))
    (collection_name : String) : Bool :=
  !(hd.any fun pt => pt.2.any fun c => c.name == collection_name)

/-- Stable descending insertion for `find_root_container` (Python
`list.sort(key, reverse=True)` keeps the original order of equal keys). -/
def insertDesc (x : String × Nat) : List (String × Nat) → List (String × Nat)
  | [] => [x]
  | y :: ys => if y.2 ≤ x.2 then x :: y :: ys else y :: insertDesc x ys

/-- Stable descending sort by the second component. -/
def sortDesc (l : List (String × Nat)) : List (String × Nat) :=
  l.foldr insertDesc []

/-- `MISMOXSDTransformer._find_root_container`: among the parents with more
than five contained types, the one with the most contained types (first in
registry order on ties); none when no such parent exists. -/
def find_root_container (hd : List (String × List ContainedInfo)) : Option String :=
  let potential_roots := hd.filterMap fun pt =>
    if pt.2.length > 5 then some (pt.1, pt.2.length) else none
  match sortDesc potential_roots with
  | [] => none
  | x :: _ => some x.1

/-! ## Pattern predicates -/

/-- `MISMOXSDTransformer.isPattern003`: an `xsd:any` node is present. -/
def isPattern003 (e : XsdElement) : Bool := e.anyFacet.isSome

/-- `MISMOXSDTransformer.isPattern004`: an `xsd:simpleContent` node is
present. -/
def isPattern004 (e : XsdElement) : Bool := e.simpleContent.isSome

/-- Python `element.tag.endswith(...)` for the extension marker: ElementTree
tags are namespace-qualified schema node names, which never end in the
marker, so the check is constantly false. -/
def tag_marks_extension (e : XsdElement) : Bool :=
  match e.tag with
  | _ => false

/-- `MISMOXSDTransformer._is_extension_pattern`: the type name ends in the
extension marker, or the complex type has a two-element sequence whose
element names are exactly the MISMO / OTHER pair. -/
def is_extension_pattern (e : XsdElement) : Bool :=
  if strEndsWith (e.name.getD "") "EXTENSION" then true
  else
    match e.tag, e.seqElems with
    | Tag.complexType, some elems =>
      if elems.length = 2 then
        let names := elems.map fun el => el.name.getD ""
        names.contains "MISMO" && names.contains "OTHER" &&
          names.all fun n => n == "MISMO" || n == "OTHER"
      else false
    | _, _ => false

/-- `MISMOXSDTransformer.isPattern005`. -/
def isPattern005 (e : XsdElement) : Bool :=
  tag_marks_extension e || is_extension_pattern e

/-- `MISMOXSDTransformer._is_extension_type`. -/
def is_extension_type (t : String) : Bool :=
  strContains t "EXTENSION" || strContains t "MISMO_BASE" || strContains t "OTHER_BASE"

/-- `MISMOXSDTransformer._should_ignore_element_name`. -/
def should_ignore_element_name (element_name : String) : Bool :=
  if element_name == "EXTENSION" then true
  else strEndsWith element_name "EXTENSION"

/-- The fixed collection-name convention of `is_collection_type`. -/
def collection_name_indicators : List String :=
  [ "MESSAGE", "MESSAGES", "VERSIONS", "SETS", "RELATIONSHIPS", "SIGNATURES",
    "COLLECTIONS", "ABOUT_VERSIONS", "DEAL_SETS", "DOCUMENT_SETS",
    "SYSTEM_SIGNATURES", "ACCESS_STREETS", "ACCESSIBILITY_FEATURES",
    "LOAN_PRODUCTS", "BORROWERS", "PROPERTIES", "ADDRESSES", "PHONES",
    "EMAILS", "IDENTIFIERS", "DOCUMENTS", "LOANS", "TRANSACTIONS",
    "PAYMENTS", "ACCOUNTS" ]

/-- `MISMOXSDTransformer.is_collection_type`: the sequence has a child whose
type is a registered class-like type that is neither simple-content
(Pattern 004) nor extension (Pattern 005); as a fallback, the name of the
type matches the fixed collection-name convention.  Note that the
unbounded-multiplicity of the child is not consulted. -/
def is_collection_type (cti : List (String × TypeInfo)) (e : XsdElement) : Bool :=
  let methodOne :=
    match e.seqElems with
    | some elems =>
      elems.any fun el =>
        match truthy el.type with
        | some t =>
          match lookupDict cti t with
          | some ti =>
            if isPattern004 ti.element then false
            else if isPattern005 ti.element then false
            else ti.is_owl_class
          | none => false
        | none => false
    | none => false
  methodOne || collection_name_indicators.contains (e.name.getD "UNNAMED")

/-- `MISMOXSDTransformer.has_only_attributes`: the sequence, when present,
has no element children, and at least one attribute exists. -/
def has_only_attributes (e : XsdElement) : Bool :=
  let seqHasElems :=
    match e.seqElems with
    | some elems => !elems.isEmpty
    | none => false
  if seqHasElems then false else !e.attrs.isEmpty

/-- `xsd:enumeration` facet present (the classifier probes the element with
a descendant search; enumeration facets live under the restriction node). -/
def has_enum_facet (e : XsdElement) : Bool :=
  match e.restrictionFacet with
  | some r => !r.enums.isEmpty
  | none => false

/-- `MISMOXSDTransformer.should_ignore_element` (only reachable from the
classifier for nodes that are neither simple nor complex types). -/
def should_ignore_element (e : XsdElement) : Bool :=
  if e.unionFacet.isSome then false
  else if tag_marks_extension e then true
  else if e.anyFacet.isSome then true
  else
    let early : Option Bool :=
      match e.tag with
      | Tag.complexType =>
        let seqDecision : Option Bool :=
          match e.seqElems with
          | some elems =>
            let allExt := elems.all fun el =>
              match truthy el.type with
              | some t => is_extension_type t
              | none => true
            if allExt then some true else none
          | none => none
        match seqDecision with
        | some b => some b
        | none =>
          match e.simpleContent with
          | some sc =>
            match sc.ext with
            | some ext =>
              if !(ext.attrs.filterMap fun a => truthy a.name).isEmpty then some false
              else none
            | none => none
          | none => none
      | _ => none
    match early with
    | some b => b
    | none =>
      let hasIgnorableGroups := e.attrGroupRefs.any fun r =>
        strContains r "xlink:" || strContains r "AttributeExtension"
      if hasIgnorableGroups then
        let hasElements :=
          match e.seqElems with
          | some elems => !elems.isEmpty
          | none => false
        if !hasElements && e.attrs.isEmpty && !e.simpleContent.isSome then true
        else false
      else false

/-- `MISMOXSDTransformer.find_pattern_type`: the ordered decision procedure
assigning each schema node its transformation pattern. -/
def find_pattern_type (cti : List (String × TypeInfo)) (e : XsdElement) : String :=
  match e.tag with
  | Tag.simpleType =>
    if e.unionFacet.isSome then "Pattern 001.1"
    else if has_enum_facet e then "Pattern 002"
    else "Pattern 001"
  | Tag.complexType =>
    if isPattern003 e then "Pattern 003"
    else if isPattern005 e then "Pattern 005"
    else if isPattern004 e then "Pattern 004"
    else if is_collection_type cti e then "Pattern 007"
    else if has_only_attributes e then "Pattern 009"
    else "Pattern 006"
  | Tag.other =>
    if should_ignore_element e then "Pattern 008" else "UNKNOWN PATTERN"

/-! ## Emitted statements

One constructor per f-string template of the source.  Subjects are stored
without the implicit mismo namespace; labels and comments are stored as the
rendered token (direct templates wrap the raw text in quotes, formatter
templates pass it through `format_comment_for_ttl`); superclass and range
references are stored as rendered (`mismo:`-qualified or literal) tokens. -/

inductive Stmt where
  /-- `a rdfs:Datatype` declaration with optional comment and its
  `rdfs:subClassOf` reference list. -/
  | datatypeDecl (subject label : String) (comment : Option String) (supers : List String)
  /-- `a rdf:Property` declaration for one enumeration value, with its
  `rdfs:subPropertyOf` base datatype. -/
  | enumProp (subject label comment superProp : String)
  /-- `a owl:Class` declaration; `inlineSuper` is the `rdfs:subClassOf`
  reference when the template carries one inline. -/
  | classDecl (subject label comment : String) (inlineSuper : Option String)
  /-- A bare `rdfs:subClassOf` statement. -/
  | subClassOf (subject superRef : String)
  /-- `a owl:DatatypeProperty` with optional `rdfs:domain` and its range. -/
  | datatypeProp (subject label comment : String) (domain : Option String) (range : String)
  /-- `a owl:ObjectProperty` with optional `rdfs:domain` and its range. -/
  | objectProp (subject label comment : String) (domain : Option String) (range : String)
  /-- The collection membership template: `a owl:ObjectProperty` with
  `owl:domain`, `owl:range`, and `rdfs:subPropertyOf rdf:member`. -/
  | containsProp (subject label comment domain range : String)
  /-- The `owl:minCardinality` restriction template of
  `establish_class_hierarchies`. -/
  | cardRestriction (subject prop : String)
  deriving Repr, DecidableEq

/-! ## Pattern emitters -/

/-- `MISMOXSDTransformer.transform_pattern_001`: simple types with
restrictions become datatype declarations under their base. -/
def transform_pattern_001 (e : XsdElement) : List Stmt :=
  match truthy e.name with
  | none => []
  | some name =>
    match e.restrictionFacet with
    | none => []
    | some r =>
      match truthy r.base with
      | none => []
      | some base =>
        if base = "xsd:string" then
          match r.maxLengthVal with
          | some maxv =>
            [Stmt.datatypeDecl name (quoteStr name)
              (some (format_comment_for_ttl
                ("String datatype with maximum length of " ++ maxv ++ " characters")))
              ["xsd:string"]]
          | none =>
            [Stmt.datatypeDecl name (quoteStr name) none [format_type_reference base]]
        else
          [Stmt.datatypeDecl name (quoteStr name) none [format_type_reference base]]

/-- `MISMOXSDTransformer.transform_pattern_001_1`: union types become one
datatype declaration subordinate to every member type. -/
def transform_pattern_001_1 (e : XsdElement) : List Stmt :=
  match truthy e.name with
  | none => []
  | some name =>
    let comment := e.doc.getD ("Union datatype: " ++ name)
    match e.unionFacet with
    | none => []
    | some u =>
      match truthy u.memberTypes with
      | none => []
      | some mts =>
        let formatted := (splitWs mts).map fun t =>
          if strStartsWith t "xsd:" then t else "mismo:" ++ t
        [Stmt.datatypeDecl name (quoteStr name)
          (some (format_comment_for_ttl comment)) formatted]

/-- `MISMOXSDTransformer.transform_pattern_002`: enumerations become a base
datatype declaration plus one property per enumeration value, each
subordinate to the base. -/
def transform_pattern_002 (e : XsdElement) : List Stmt :=
  match truthy e.name with
  | none => []
  | some name =>
    match e.restrictionFacet with
    | none => []
    | some r =>
      match truthy r.base with
      | none => []
      | some base =>
        Stmt.datatypeDecl name (quoteStr name)
            (some (format_comment_for_ttl
              ("Base datatype for " ++ name ++ " enumerations")))
            [format_type_reference base]
        :: r.enums.filterMap fun en =>
            if en.value = "" then none
            else
              some (Stmt.enumProp en.value (quoteStr en.value)
                (format_comment_for_ttl (en.doc.getD ("Enumeration value: " ++ en.value)))
                name)

/-- The two statements of Pattern 003 for a wildcard from other namespaces. -/
def pattern003_other_stmts : List Stmt :=
  [ Stmt.datatypeProp "hasOtherNamespaceElementContent"
      (format_comment_for_ttl "has other namespace element content")
      (format_comment_for_ttl
        "Property that holds the string content of any element from other namespaces")
      none "xsd:string",
    Stmt.objectProp "hasOtherNamespaceElement"
      (format_comment_for_ttl "has other namespace element")
      (format_comment_for_ttl
        "Property representing complex elements that allows any elements from other namespaces (namespace=\x27##other\x27)")
      none "owl:Thing" ]

/-- The two statements of Pattern 003 for a target-namespace wildcard. -/
def pattern003_target_stmts : List Stmt :=
  [ Stmt.datatypeProp "hasAnyElementContent"
      (format_comment_for_ttl "has any element content")
      (format_comment_for_ttl
        "Property that holds the string content of any element from the target namespace")
      none "xsd:string",
    Stmt.objectProp "hasAnyElement"
      (format_comment_for_ttl "has any element")
      (format_comment_for_ttl
        "Property representing complex elements that allows any elements from the target namespace")
      none "owl:Thing" ]

/-- `MISMOXSDTransformer.transform_pattern_003`: wildcard types emit no
standalone class, only the generic content datatype property and the generic
element object property, chosen by the wildcard namespace. -/
def transform_pattern_003 (e : XsdElement) : List Stmt :=
  match e.anyFacet with
  | none => []
  | some a =>
    if a.namespaceAttr.getD "##targetNamespace" = "##other" then pattern003_other_stmts
    else pattern003_target_stmts

/-- `MISMOXSDTransformer.transform_pattern_004`: simple content becomes a
datatype declaration plus one datatype property per extension attribute. -/
def transform_pattern_004 (e : XsdElement) : List Stmt :=
  match truthy e.name with
  | none => []
  | some name =>
    let comment := e.doc.getD ("Complex type: " ++ name)
    match e.simpleContent with
    | none => []
    | some sc =>
      match sc.ext with
      | none => []
      | some ext =>
        match truthy ext.base with
        | none => []
        | some base =>
          Stmt.datatypeDecl name (quoteStr name)
              (some (format_comment_for_ttl comment)) [format_type_reference base]
          :: ext.attrs.filterMap fun a =>
              match truthy a.name, truthy a.type with
              | some an, some aty =>
                let prop := to_camel_case an
                some (Stmt.datatypeProp prop (quoteStr prop)
                  (format_comment_for_ttl (a.doc.getD ("Attribute: " ++ an)))
                  (some name) (format_type_reference aty))
              | _, _ => none

/-- `MISMOXSDTransformer.transform_pattern_005`: extension types emit no
class, only one object property per sequence element. -/
def transform_pattern_005 (e : XsdElement) : List Stmt :=
  match e.seqElems with
  | none => []
  | some elems =>
    elems.filterMap fun el =>
      match truthy el.name, truthy el.type with
      | some en, some et =>
        let pname := if pyIsUpper en then "has" ++ pyTitle en else "has" ++ en
        let rangeType := if strEndsWith et "_BASE" then "owl:Thing" else "mismo:" ++ et
        some (Stmt.objectProp pname
          (format_comment_for_ttl ("has " ++ pyLowerStr en))
          (format_comment_for_ttl
            (el.doc.getD ("Property representing the " ++ en ++ " element of type " ++ et)))
          none rangeType)
      | _, _ => none

/-- The class statements shared by Patterns 006 and 009: parents from the
hierarchy as separate subClassOf statements, the universal root inline
otherwise. -/
def class_with_parents (name label comment : String) (parents : List String) : List Stmt :=
  if parents.isEmpty then
    [Stmt.classDecl name label comment (some "owl:Thing")]
  else
    Stmt.classDecl name label comment none
    :: parents.map fun p => Stmt.subClassOf name ("mismo:" ++ p)

/-- One sequence element of Pattern 006: the extension marker becomes the
`hasExtension` object property, anything else a datatype property. -/
def p006_elem (name : String) (el : ChildElem) : Option Stmt :=
  match truthy el.name, truthy el.type with
  | some en, some et =>
    if en = "EXTENSION" && strEndsWith et "_EXTENSION" then
      some (Stmt.objectProp "hasExtension" (format_comment_for_ttl "has extension")
        (format_comment_for_ttl
          ("Property representing the " ++ en ++ " element of type " ++ et))
        (some name) "owl:Thing")
    else
      some (Stmt.datatypeProp (lower_first en)
        (format_comment_for_ttl (lower_spaced en))
        (format_comment_for_ttl (el.doc.getD ("Element: " ++ en)))
        (some name) (format_type_reference et))
  | _, _ => none

/-- One attribute of Pattern 006. -/
def p006_attr (name : String) (a : AttrDecl) : Option Stmt :=
  match truthy a.name, truthy a.type with
  | some an, some aty =>
    some (Stmt.datatypeProp (lower_first an)
      (format_comment_for_ttl (lower_spaced an))
      (format_comment_for_ttl (a.doc.getD ("Attribute: " ++ an)))
      (some name) (format_type_reference aty))
  | _, _ => none

/-- `MISMOXSDTransformer.transform_pattern_006`: the default complex type
becomes a class (superclasses from `get_parent_types`, the universal root
otherwise) plus one property per sequence element and per attribute. -/
def transform_pattern_006 (hd : List (String × List ContainedInfo)) (e : XsdElement) :
    List Stmt :=
  match truthy e.name with
  | none => []
  | some name =>
    let comment := e.doc.getD ("Complex type: " ++ name)
    class_with_parents name (quoteStr name) (format_comment_for_ttl comment)
        (get_parent_types hd name)
      ++ (e.seqElems.getD []).filterMap (p006_elem name)
      ++ e.attrs.filterMap (p006_attr name)

/-- One attribute of Pattern 009 (subject and label keep the raw attribute
name). -/
def p009_attr (name : String) (a : AttrDecl) : Option Stmt :=
  match truthy a.name, truthy a.type with
  | some an, some aty =>
    some (Stmt.datatypeProp an (quoteStr an)
      (format_comment_for_ttl (a.doc.getD ("Attribute: " ++ an)))
      (some name) (format_type_reference aty))
  | _, _ => none

/-- `MISMOXSDTransformer.transform_pattern_009`: attributes-only complex
types become a class plus one datatype property per attribute. -/
def transform_pattern_009 (hd : List (String × List ContainedInfo)) (e : XsdElement) :
    List Stmt :=
  match truthy e.name with
  | none => []
  | some name =>
    let comment := e.doc.getD ("Complex type: " ++ name)
    class_with_parents name (quoteStr name) (format_comment_for_ttl comment)
        (get_parent_types hd name)
      ++ e.attrs.filterMap (p009_attr name)

/-- The extension special case of `transform_pattern_007_new`. -/
def extension_case (c : ContainedInfo) : Bool :=
  c.name == "EXTENSION" && strEndsWith c.type "_EXTENSION"

/-- Whether a type reference names a class-like registry entry. -/
def is_owl_class_in (cti : List (String × TypeInfo)) (t : String) : Bool :=
  match lookupDict cti t with
  | some ti => ti.is_owl_class
  | none => false

/-- The statements `transform_pattern_007_new` emits for one hierarchy entry
of the collection: the extension marker becomes `hasExtension`; a class-like
reference becomes a contained class under the collection plus the
membership object property; anything else a datatype property.  The
declared multiplicity of the entry is not consulted. -/
def emit_contained (cti : List (String × TypeInfo)) (name : String) (c : ContainedInfo) :
    List Stmt :=
  if extension_case c then
    [Stmt.objectProp "hasExtension" (format_comment_for_ttl "has extension")
      (format_comment_for_ttl
        ("Property representing the " ++ c.name ++ " element of type " ++ c.type))
      (some name) "owl:Thing"]
  else if !(c.type == "") && is_owl_class_in cti c.type then
    [Stmt.classDecl c.name (quoteStr c.name)
      (format_comment_for_ttl
        ("Individual " ++ c.name ++ " element contained in " ++ name ++ " collection"))
      (some ("mismo:" ++ name)),
     Stmt.containsProp ("contains" ++ c.name) (quoteStr ("contains " ++ c.name))
      (format_comment_for_ttl
        ("Relates " ++ name ++ " to individual " ++ c.name ++ " instances"))
      name c.name]
  else
    [Stmt.datatypeProp c.name (quoteStr c.name)
      (format_comment_for_ttl ("Property representing the " ++ c.name ++ " element"))
      (some name) (if c.type == "" then "xsd:string" else format_type_reference c.type)]

/-- The `track_collection_element_relationship` call made for one hierarchy
entry while emitting a collection. -/
def track_contained (cti : List (String × TypeInfo)) (name : String) (c : ContainedInfo) :
    Option (String × String) :=
  if extension_case c then none
  else if !(c.type == "") && is_owl_class_in cti c.type then some (name, c.name)
  else none

/-- `MISMOXSDTransformer.transform_pattern_007_new`: the collection class
(superclasses from `_determine_collection_parents`, the universal root
otherwise) followed by the statements for every hierarchy entry, together
with the tracked collection - element pairs. -/
def transform_pattern_007_new (cti : List (String × TypeInfo))
    (hd : List (String × List ContainedInfo)) (e : XsdElement) :
    List Stmt × List (String × String) :=
  match truthy e.name with
  | none => ([], [])
  | some name =>
    let comment := e.doc.getD ("Collection type: " ++ name)
    match lookupDict hd name with
    | none => ([], [])
    | some contained =>
      let classStmts :=
        class_with_parents name (quoteStr name)
          (format_comment_for_ttl ("A collection containing multiple instances. " ++ comment))
          (determine_collection_parents hd name)
      (classStmts ++ (contained.map (emit_contained cti name)).flatten,
       contained.filterMap (track_contained cti name))

/-- `MISMOXSDTransformer.transform_pattern_008`: attribute groups are
ignored. -/
def transform_pattern_008 (e : XsdElement) : List Stmt :=
  match e with
  | _ => []

/-! ## Dispatch, post passes and the top-level loop -/

/-- `MISMOXSDTransformer.transform_element_new`: classify the node and
dispatch to the pattern emitter, returning both the statements and the
collection - element pairs tracked while emitting (only Pattern 007 tracks
any; the flag disables Pattern 007 emission entirely). -/
def transform_element_new (cti : List (String × TypeInfo))
    (hd : List (String × List ContainedInfo)) (dis : Bool) (e : XsdElement) :
    List Stmt × List (String × String) :=
  let pt := find_pattern_type cti e
  if pt == "Pattern 001" then (transform_pattern_001 e, [])
  else if pt == "Pattern 001.1" then (transform_pattern_001_1 e, [])
  else if pt == "Pattern 002" then (transform_pattern_002 e, [])
  else if pt == "Pattern 003" then (transform_pattern_003 e, [])
  else if pt == "Pattern 004" then (transform_pattern_004 e, [])
  else if pt == "Pattern 005" then (transform_pattern_005 e, [])
  else if pt == "Pattern 006" then (transform_pattern_006 hd e, [])
  else if pt == "Pattern 007" then
    (if dis then ([], []) else transform_pattern_007_new cti hd e)
  else if pt == "Pattern 008" then (transform_pattern_008 e, [])
  else ([], [])

/-- `MISMOXSDTransformer.ensure_hierarchy_consistency`: replay every tracked
collection - element pair, reasserting that the element is a subclass of the
collection and that the collection has its resolved parents (or the
universal root). -/
def ensure_hierarchy_consistency (hd : List (String × List ContainedInfo))
    (pending : List (String × String)) : List Stmt :=
  (pending.map fun pr =>
    Stmt.subClassOf pr.2 ("mismo:" ++ pr.1)
    :: (let parents := determine_collection_parents hd pr.1
        if parents.isEmpty then [Stmt.subClassOf pr.1 "owl:Thing"]
        else parents.map fun p => Stmt.subClassOf pr.1 ("mismo:" ++ p))).flatten

/-- The fixed pair list of `establish_class_hierarchies`. -/
def common_patterns : List (String × String) :=
  [ ("ABOUT_VERSIONS", "ABOUT_VERSION"), ("DEAL_SETS", "DEAL_SET"),
    ("DOCUMENT_SETS", "DOCUMENT_SET"), ("SYSTEM_SIGNATURES", "SYSTEM_SIGNATURE"),
    ("RELATIONSHIPS", "RELATIONSHIP"), ("SIGNATURES", "SIGNATURE"),
    ("COLLECTIONS", "COLLECTION"), ("VERSIONS", "VERSION"), ("SETS", "SET") ]

/-- `MISMOXSDTransformer.establish_class_hierarchies`: pair every processed
plural name with its processed singular, append the fixed pairs, and emit a
membership property plus a cardinality restriction for each pair. -/
def establish_class_hierarchies (transformed : List String) : List Stmt :=
  let pairsA := transformed.filterMap fun t =>
    if strEndsWith t "S" then
      (if transformed.contains (pyDropLast t) then some (t, pyDropLast t) else none)
    else none
  let pairs := common_patterns.foldl
    (fun acc pr =>
      if transformed.contains pr.1 && transformed.contains pr.2 && !(acc.contains pr) then
        acc ++ [pr]
      else acc)
    pairsA
  (pairs.map fun pr =>
    [ Stmt.containsProp ("contains" ++ pr.2) (quoteStr ("contains " ++ pr.2))
        (quoteStr ("Relates " ++ pr.1 ++ " to individual " ++ pr.2 ++ " instances"))
        pr.1 pr.2,
      Stmt.cardRestriction pr.1 ("contains" ++ pr.2) ]).flatten

/-- The per-element loop of `MISMOXSDTransformer.transform_xsd`: skip
elements without a truthy name or whose name was already recorded; record a
name and its statement block only when the transformation produced at least
one statement; tracked pairs accumulate regardless. -/
def processElements (cti : List (String × TypeInfo))
    (hd : List (String × List ContainedInfo)) (dis : Bool) :
    List XsdElement → List String → List (String × String) →
    List (String × List Stmt) × List String × List (String × String)
  | [], tr, pend => ([], tr, pend)
  | e :: rest, tr, pend =>
    match truthy e.name with
    | none => processElements cti hd dis rest tr pend
    | some n =>
      if tr.contains n then processElements cti hd dis rest tr pend
      else
        let r := transform_element_new cti hd dis e
        if r.1.isEmpty then processElements cti hd dis rest tr (pend ++ r.2)
        else
          let rec2 := processElements cti hd dis rest (tr ++ [n]) (pend ++ r.2)
          ((n, r.1) :: rec2.1, rec2.2)

/-- `MISMOXSDTransformer.transform_xsd` after registry and hierarchy
construction: simple types without the built-in namespace first, then the
complex types with the MESSAGE root prioritized, then the per-element loop,
returning the named statement blocks, the recorded names and the tracked
pairs. -/
def transform_xsd_blocks (cti : List (String × TypeInfo))
    (hd : List (String × List ContainedInfo)) (dis : Bool)
    (simpleTypes complexTypes : List XsdElement) :
    List (String × List Stmt) × List String × List (String × String) :=
  let simples := simpleTypes.filter fun e =>
    match truthy e.name with
    | some n => !(strStartsWith n "xsd:")
    | none => false
  let transformable := simples ++ complexTypes.filter fun e => !(e.name == some "MESSAGE")
  match (complexTypes.filter fun e => e.name == some "MESSAGE").getLast? with
  | some me =>
    let r := transform_element_new cti hd dis me
    if r.1.isEmpty then
      let rest := processElements cti hd dis transformable [] r.2
      (rest.1, rest.2)
    else
      let rest := processElements cti hd dis transformable ["MESSAGE"] r.2
      (("MESSAGE", r.1) :: rest.1, rest.2)
  | none => processElements cti hd dis transformable [] []

/-! ## The state threaded through a classifier call -/

/-- The transformer fields the classifier call tree can reach. -/
structure ClassifierState where
  complex_type_info : List (String × TypeInfo)
  hierarchy_data : List (String × List ContainedInfo)
  deriving Repr, DecidableEq

/-- A classifier invocation as a state transition: the call tree of
`find_pattern_type` (`isPattern003` / `isPattern005` / `isPattern004` /
`is_collection_type` / `has_only_attributes` / `should_ignore_element`)
performs no assignment to any transformer field in the source, so the
embedding returns the state unchanged alongside the computed pattern. -/
def classify_run (st : ClassifierState) (e : XsdElement) : String × ClassifierState :=
  (find_pattern_type st.complex_type_info e, st)

/-! ## The spec-side classifier for refinement -/

/-- The patterns named by the specification. -/
inductive Pattern where
  | Restriction
  | Union
  | Enumeration
  | SimpleContentWithAttributes
  | AnyWildcard
  | ExtensionOnly
  | ElementsAndAttributes
  | Collection
  | AttributesOnly
  deriving Repr, DecidableEq

/-- The source docstring assigns each spec pattern its pattern string. -/
def patternName : Pattern → String
  | Pattern.Restriction => "Pattern 001"
  | Pattern.Union => "Pattern 001.1"
  | Pattern.Enumeration => "Pattern 002"
  | Pattern.AnyWildcard => "Pattern 003"
  | Pattern.SimpleContentWithAttributes => "Pattern 004"
  | Pattern.ExtensionOnly => "Pattern 005"
  | Pattern.ElementsAndAttributes => "Pattern 006"
  | Pattern.Collection => "Pattern 007"
  | Pattern.AttributesOnly => "Pattern 009"

/-- First matching guard wins, with a default. -/
def firstMatch (d : Pattern) : List (Bool × Pattern) → Pattern
  | [] => d
  | (g, r) :: rest => if g then r else firstMatch d rest

/-- The classifier as the specification words it: an ordered first-match
decision list — for simple types Union, then Enumeration, then Restriction;
for complex types AnyWildcard, then ExtensionOnly, then
SimpleContentWithAttributes, then Collection, then AttributesOnly, then the
ElementsAndAttributes default. -/
def classifierSpec (cti : List (String × TypeInfo)) (e : XsdElement) : Option Pattern :=
  match e.tag with
  | Tag.simpleType =>
    some (firstMatch Pattern.Restriction
      [ (e.unionFacet.isSome, Pattern.Union),
        (has_enum_facet e, Pattern.Enumeration) ])
  | Tag.complexType =>
    some (firstMatch Pattern.ElementsAndAttributes
      [ (isPattern003 e, Pattern.AnyWildcard),
        (isPattern005 e, Pattern.ExtensionOnly),
        (isPattern004 e, Pattern.SimpleContentWithAttributes),
        (is_collection_type cti e, Pattern.Collection),
        (has_only_attributes e, Pattern.AttributesOnly) ])
  | Tag.other => none

/-! ## Statement shape predicates -/

/-- The statement declares an owl class for the subject. -/
def is_class_decl_for (n : String) : Stmt → Bool
  | Stmt.classDecl subj _ _ _ => subj == n
  | _ => false

/-- The statement asserts a superclass for the subject (an inline
subClassOf on a class declaration, or a bare subClassOf statement). -/
def asserts_super_for (n : String) : Stmt → Bool
  | Stmt.classDecl subj _ _ (some _) => subj == n
  | Stmt.subClassOf subj _ => subj == n
  | _ => false

/-- The statement asserts the given superclass reference for the subject. -/
def asserts_super_ref (n ref : String) : Stmt → Bool
  | Stmt.classDecl subj _ _ (some s) => subj == n && s == ref
  | Stmt.subClassOf subj s => subj == n && s == ref
  | _ => false

/-- A class declaration for the subject occurs in the list. -/
def has_class_decl (l : List Stmt) (n : String) : Bool := l.any (is_class_decl_for n)

/-- A superclass assertion for the subject occurs in the list. -/
def has_super (l : List Stmt) (n : String) : Bool := l.any (asserts_super_for n)

/-- A superclass assertion with the given reference occurs in the list. -/
def has_super_ref (l : List Stmt) (n ref : String) : Bool := l.any (asserts_super_ref n ref)

/-- The statement is a membership object property with the given subject. -/
def is_contains_prop_for (n : String) : Stmt → Bool
  | Stmt.containsProp subj _ _ _ _ => subj == n
  | _ => false

/-- The statement is a datatype property with the given subject. -/
def is_datatype_prop_for (n : String) : Stmt → Bool
  | Stmt.datatypeProp subj _ _ _ _ => subj == n
  | _ => false

/-- The statement is a datatype property. -/
def is_datatype_prop : Stmt → Bool
  | Stmt.datatypeProp _ _ _ _ _ => true
  | _ => false

/-- The statement is an object property. -/
def is_object_prop : Stmt → Bool
  | Stmt.objectProp _ _ _ _ _ => true
  | _ => false

/-! ## Concrete schema fragments used to evaluate the claims -/

/-- A blank complex type node. -/
def emptyElem : XsdElement :=
  { tag := Tag.complexType, name := none, doc := none, unionFacet := none,
    restrictionFacet := none, anyFacet := none, simpleContent := none,
    seqElems := none, attrs := [], attrGroupRefs := [] }

/-- A class-like type with a single attribute and no sequence. -/
def mkAttrClass (n : String) : XsdElement :=
  { emptyElem with
    name := some n
    attrs := [{ name := some "Id", type := some "xsd:string", doc := none }] }

/-- A bounded sequence child referencing the type of the same name. -/
def mkChild (n : String) : ChildElem :=
  { name := some n, type := some n, maxOccurs := none, doc := none }

/-- A complex type with an empty sequence and no attributes (classified
ElementsAndAttributes). -/
def c1Elem : XsdElement :=
  { emptyElem with
    name := some "PARTY"
    seqElems := some [] }

/-- An enumerated simple type used to exercise the classifier. -/
def c2Elem : XsdElement :=
  { emptyElem with
    tag := Tag.simpleType
    name := some "COLOR_TYPE"
    restrictionFacet := some { base := some "xsd:string", maxLengthVal := none,
                               enums := [{ value := "Red", doc := none }] } }

/-- The MESSAGE root container: six bounded children of class-like types. -/
def msgElemC3 : XsdElement :=
  { emptyElem with
    name := some "MESSAGE"
    seqElems := some [mkChild "T1", mkChild "T2", mkChild "T3", mkChild "T4",
                      mkChild "T5", mkChild "T6"] }

/-- A contained element type for the C3 scenario. -/
def orphanElemC3 : XsdElement := mkAttrClass "ORPHAN"

/-- A collection that no other type contains, in a schema that has an
identifiable root container. -/
def orphansElemC3 : XsdElement :=
  { emptyElem with
    name := some "ORPHANS"
    seqElems := some [{ name := some "ORPHAN", type := some "ORPHAN",
                        maxOccurs := some "unbounded", doc := none }] }

/-- The registry of the C3 scenario. -/
def ctiC3 : List (String × TypeInfo) :=
  analyze_xsd_structure
    [msgElemC3, orphansElemC3, orphanElemC3, mkAttrClass "T1", mkAttrClass "T2",
     mkAttrClass "T3", mkAttrClass "T4", mkAttrClass "T5", mkAttrClass "T6"] []

/-- The containment graph of the C3 scenario. -/
def hdC3 : List (String × List ContainedInfo) := build_hierarchy_data ctiC3

/-- The statements emitted for the ORPHANS collection of the C3 scenario. -/
def outC3 : List Stmt := (transform_pattern_007_new ctiC3 hdC3 orphansElemC3).1

/-- A parentless complex type used as the C3 witness input. -/
def soloElemC3 : XsdElement :=
  { emptyElem with
    name := some "SOLO"
    seqElems := some [] }

/-- The contained element type of the C4 scenario. -/
def borrowerElemC4 : XsdElement := mkAttrClass "BORROWER"

/-- A collection whose only contained reference is bounded. -/
def borrowersElemC4 : XsdElement :=
  { emptyElem with
    name := some "BORROWERS"
    seqElems := some [{ name := some "BORROWER", type := some "BORROWER",
                        maxOccurs := some "1", doc := none }] }

/-- The registry of the C4 scenario. -/
def ctiC4 : List (String × TypeInfo) :=
  analyze_xsd_structure [borrowersElemC4, borrowerElemC4] []

/-- The containment graph of the C4 scenario. -/
def hdC4 : List (String × List ContainedInfo) := build_hierarchy_data ctiC4

/-- The statements emitted for the BORROWERS collection of the C4 scenario. -/
def outC4 : List Stmt := (transform_pattern_007_new ctiC4 hdC4 borrowersElemC4).1

/-- The contained element type of the C5 scenario. -/
def borrowerElemC5 : XsdElement := mkAttrClass "BORROWER"

/-- The extension type of the C5 scenario (class-like in the registry). -/
def borrowersExtElemC5 : XsdElement := mkAttrClass "BORROWERS_EXTENSION"

/-- A collection with an unbounded class-like child and an unbounded
EXTENSION child whose type is the registered extension type. -/
def borrowersElemC5 : XsdElement :=
  { emptyElem with
    name := some "BORROWERS"
    seqElems := some
      [{ name := some "BORROWER", type := some "BORROWER",
         maxOccurs := some "unbounded", doc := none },
       { name := some "EXTENSION", type := some "BORROWERS_EXTENSION",
         maxOccurs := some "unbounded", doc := none }] }

/-- The registry of the C5 scenario. -/
def ctiC5 : List (String × TypeInfo) :=
  analyze_xsd_structure [borrowersElemC5, borrowerElemC5, borrowersExtElemC5] []

/-- The containment graph of the C5 scenario. -/
def hdC5 : List (String × List ContainedInfo) := build_hierarchy_data ctiC5

/-- The statements emitted for the BORROWERS collection of the C5 scenario. -/
def outC5 : List Stmt := (transform_pattern_007_new ctiC5 hdC5 borrowersElemC5).1

/-- The restriction of the Scenario A enumeration. -/
def lsRestriction : RestrictionInfo :=
  { base := some "xsd:string", maxLengthVal := none,
    enums := [{ value := "Active", doc := none }, { value := "Closed", doc := none }] }

/-- Scenario A: `LOAN_STATUS_TYPE` with enumerations Active and Closed. -/
def loanStatusElem : XsdElement :=
  { emptyElem with
    tag := Tag.simpleType
    name := some "LOAN_STATUS_TYPE"
    restrictionFacet := some lsRestriction }

/-- A complex type with a target-namespace wildcard. -/
def anyBaseElem : XsdElement :=
  { emptyElem with
    name := some "MISMO_BASE"
    anyFacet := some { namespaceAttr := none } }

/-- A duplicate-named simple type whose transformation produces nothing
(no restriction node). -/
def fooEmptyElem : XsdElement :=
  { emptyElem with
    tag := Tag.simpleType
    name := some "FOO" }

/-- A duplicate-named simple type whose transformation produces one
statement. -/
def fooFullElem : XsdElement :=
  { emptyElem with
    tag := Tag.simpleType
    name := some "FOO"
    restrictionFacet := some { base := some "xsd:int", maxLengthVal := none, enums := [] } }

/-- A simple type used as the C10 witness input. -/
def c10WElem : XsdElement :=
  { emptyElem with
    tag := Tag.simpleType
    name := some "FOO"
    restrictionFacet := some { base := some "xsd:token", maxLengthVal := none, enums := [] } }

/-! ## Generic lemmas -/

/-- A `filterMap` whose produced elements all refute a predicate yields a
list on which `any` is false. -/
theorem any_filterMap_false {α β : Type} (p : β → Bool) (f : α → Option β) (l : List α)
    (h : ∀ a b, f a = some b → p b = false) : (l.filterMap f).any p = false := by
  induction l with
  | nil => rfl
  | cons a t ih =>
    cases hfa : f a with
    | none => simpa [List.filterMap_cons, hfa] using ih
    | some b => simp [List.filterMap_cons, hfa, h a b hfa, ih]

/-- A fold whose every step either keeps the accumulator or appends one
fresh key appends the key at most once overall. -/
theorem foldl_add_once {α : Type} (k : String) (f : List String → α → List String)
    (hf : ∀ acc a, f acc a = acc ∨ (k ∉ acc ∧ f acc a = acc ++ [k])) :
    ∀ (l : List α) (acc : List String),
      l.foldl f acc = acc ∨ (k ∉ acc ∧ l.foldl f acc = acc ++ [k]) := by
  intro l
  induction l with
  | nil => intro acc; left; rfl
  | cons a t ih =>
    intro acc
    rcases hf acc a with h1 | ⟨hk, h1⟩
    · rw [List.foldl_cons, h1]; exact ih acc
    · rcases ih (acc ++ [k]) with h2 | ⟨hk2, h2⟩
      · right; rw [List.foldl_cons, h1, h2]; exact ⟨hk, rfl⟩
      · exact absurd (by simp : k ∈ acc ++ [k]) hk2

/-- A fold whose every step either keeps the accumulator or appends a fresh
key preserves duplicate freedom. -/
theorem nodup_foldl_step {α : Type} (f : List String → α → List String)
    (hf : ∀ acc a, f acc a = acc ∨ ∃ k, k ∉ acc ∧ f acc a = acc ++ [k]) :
    ∀ (l : List α) (acc : List String), acc.Nodup → (l.foldl f acc).Nodup := by
  intro l
  induction l with
  | nil => intro acc h; exact h
  | cons a t ih =>
    intro acc h
    rcases hf acc a with h1 | ⟨k, hk, h1⟩
    · rw [List.foldl_cons, h1]; exact ih acc h
    · rw [List.foldl_cons, h1]
      exact ih _ (by simp [List.nodup_append, h, hk])

/-- After escaping, every double quote is preceded by a backslash,
whatever character precedes the list. -/
theorem quotesEscapedAux_escapeQuotes (l : List Char) :
    ∀ prev, quotesEscapedAux prev (escapeQuotes l) = true := by
  induction l with
  | nil => intro prev; rfl
  | cons c rest ih =>
    intro prev
    by_cases hc : c = '"'
    · subst hc
      simp [escapeQuotes, quotesEscapedAux, ih]
    · simp [escapeQuotes, hc, quotesEscapedAux, ih]

/-- The escaped form of any character list has all its double quotes
backslash-escaped. -/
theorem quotesEscaped_escapeQuotes (l : List Char) :
    quotesEscaped (escapeQuotes l) = true := by
  cases l with
  | nil => rfl
  | cons c rest =>
    by_cases hc : c = '"'
    · subst hc
      simp [escapeQuotes, quotesEscaped, quotesEscapedAux, quotesEscapedAux_escapeQuotes]
    · simp [escapeQuotes, hc, quotesEscaped, quotesEscapedAux_escapeQuotes]

/-- Claim C8: every comment rendered into Turtle has its embedded double
quotes escaped; when the stripped comment contains a newline the rendering
is the triple-quoted block literal around the escaped text, and otherwise
it is the single-line double-quoted literal around the escaped text. -/
theorem c8_comment_escaping : ∀ (s : String), s ≠ "" →
    quotesEscaped (escapeQuotes (pyStrip s).toList) = true
  ∧ ((pyStrip s).toList.contains '\n' = true →
      format_comment_for_ttl s =
        "\"\"\"\n" ++ String.mk (escapeQuotes (pyStrip s).toList) ++ "\n\"\"\"")
  ∧ ((pyStrip s).toList.contains '\n' = false →
      format_comment_for_ttl s =
        "\"" ++ String.mk (escapeQuotes (pyStrip s).toList) ++ "\"") := by
  intro s hs
  refine ⟨quotesEscaped_escapeQuotes _, ?_, ?_⟩
  · intro hnl
    have hnl2 : '\n' ∈ (pyStrip s).data := by simpa using hnl
    simp [format_comment_for_ttl, hs, hnl2]
  · intro hnl
    have hnl2 : '\n' ∉ (pyStrip s).data := by simpa using hnl
    simp [format_comment_for_ttl, hs, hnl2]

/-- Witness for C8 at a concrete comment containing quotes and a newline. -/
theorem c8_witness :
    quotesEscaped (escapeQuotes (pyStrip " He said \"ok\"\nBye ").toList) = true ∧
    format_comment_for_ttl " He said \"ok\"\nBye " =
      "\"\"\"\n" ++ String.mk (escapeQuotes (pyStrip " He said \"ok\"\nBye ").toList) ++ "\n\"\"\"" := by
  have h := c8_comment_escaping " He said \"ok\"\nBye " (by decide)
  exact ⟨h.1, h.2.1 (by decide)⟩

/-- Claim C9: pattern classification is deterministic and effect-free — a
classifier invocation leaves the registry and hierarchy data unchanged,
re-running it on the unchanged state yields the same pattern, and the
computed pattern does not depend on the hierarchy data at all. -/
theorem c9_classifier_deterministic :
    ∀ (st : ClassifierState) (e : XsdElement),
      (classify_run st e).2 = st
    ∧ (classify_run ((classify_run st e).2) e).1 = (classify_run st e).1
    ∧ ∀ (hd2 : List (String × List ContainedInfo)),
        (classify_run { complex_type_info := st.complex_type_info,
                        hierarchy_data := hd2 } e).1 = (classify_run st e).1 := by
  intro st e
  exact ⟨rfl, rfl, fun hd2 => rfl⟩

/-- Claim C2: the classifier agrees with the ordered first-match decision
list of the specification on every simple and complex type — Union, then
Enumeration, then Restriction for simple types; AnyWildcard, then
ExtensionOnly, then SimpleContentWithAttributes, then Collection, then
AttributesOnly, then the ElementsAndAttributes default for complex types. -/
theorem c2_classifier_priority_order :
    ∀ (cti : List (String × TypeInfo)) (e : XsdElement) (p : Pattern),
      classifierSpec cti e = some p → find_pattern_type cti e = patternName p := by
  intro cti e p h
  cases htag : e.tag with
  | simpleType =>
    simp only [classifierSpec, htag] at h
    injection h with h
    subst h
    simp only [find_pattern_type, htag]
    cases h1 : e.unionFacet.isSome with
    | true => simp [firstMatch, h1, patternName]
    | false =>
      cases h2 : has_enum_facet e with
      | true => simp [firstMatch, h1, h2, patternName]
      | false => simp [firstMatch, h1, h2, patternName]
  | complexType =>
    simp only [classifierSpec, htag] at h
    injection h with h
    subst h
    simp only [find_pattern_type, htag]
    cases h1 : isPattern003 e with
    | true => simp [firstMatch, h1, patternName]
    | false =>
      cases h2 : isPattern005 e with
      | true => simp [firstMatch, h1, h2, patternName]
      | false =>
        cases h3 : isPattern004 e with
        | true => simp [firstMatch, h1, h2, h3, patternName]
        | false =>
          cases h4 : is_collection_type cti e with
          | true => simp [firstMatch, h1, h2, h3, h4, patternName]
          | false =>
            cases h5 : has_only_attributes e with
            | true => simp [firstMatch, h1, h2, h3, h4, h5, patternName]
            | false => simp [firstMatch, h1, h2, h3, h4, h5, patternName]
  | other =>
    simp only [classifierSpec, htag] at h
    exact Option.noConfusion h

/-- Witness for C2 at a concrete enumerated simple type. -/
theorem c2_witness : find_pattern_type [] c2Elem = patternName Pattern.Enumeration :=
  c2_classifier_priority_order [] c2Elem Pattern.Enumeration (by decide)

/-! ## Per-emitter class and superclass lemmas -/

/-- Pattern 001 emits no class declaration. -/
theorem no_class_001 (e : XsdElement) (n : String) :
    has_class_decl (transform_pattern_001 e) n = false := by
  rw [has_class_decl, List.any_eq_false]
  intro s hs
  cases h1 : truthy e.name with
  | none => simp [transform_pattern_001, h1] at hs
  | some name =>
    cases h2 : e.restrictionFacet with
    | none => simp [transform_pattern_001, h1, h2] at hs
    | some r =>
      cases h3 : truthy r.base with
      | none => simp [transform_pattern_001, h1, h2, h3] at hs
      | some base =>
        by_cases hb : base = "xsd:string"
        · cases h4 : r.maxLengthVal with
          | some maxv =>
            simp [transform_pattern_001, h1, h2, h3, h4, hb] at hs
            subst hs
            simp [is_class_decl_for]
          | none =>
            simp [transform_pattern_001, h1, h2, h3, h4, hb] at hs
            subst hs
            simp [is_class_decl_for]
        · simp [transform_pattern_001, h1, h2, h3, hb] at hs
          subst hs
          simp [is_class_decl_for]

/-- Pattern 001.1 emits no class declaration. -/
theorem no_class_001_1 (e : XsdElement) (n : String) :
    has_class_decl (transform_pattern_001_1 e) n = false := by
  rw [has_class_decl, List.any_eq_false]
  intro s hs
  cases h1 : truthy e.name with
  | none => simp [transform_pattern_001_1, h1] at hs
  | some name =>
    cases h2 : e.unionFacet with
    | none => simp [transform_pattern_001_1, h1, h2] at hs
    | some u =>
      cases h3 : truthy u.memberTypes with
      | none => simp [transform_pattern_001_1, h1, h2, h3] at hs
      | some mts =>
        simp only [transform_pattern_001_1, h1, h2, h3, List.mem_singleton] at hs
        subst hs
        simp [is_class_decl_for]

/-- Pattern 002 emits no class declaration. -/
theorem no_class_002 (e : XsdElement) (n : String) :
    has_class_decl (transform_pattern_002 e) n = false := by
  rw [has_class_decl, List.any_eq_false]
  intro s hs
  cases h1 : truthy e.name with
  | none => simp [transform_pattern_002, h1] at hs
  | some name =>
    cases h2 : e.restrictionFacet with
    | none => simp [transform_pattern_002, h1, h2] at hs
    | some r =>
      cases h3 : truthy r.base with
      | none => simp [transform_pattern_002, h1, h2, h3] at hs
      | some base =>
        simp only [transform_pattern_002, h1, h2, h3, List.mem_cons,
          List.mem_filterMap] at hs
        rcases hs with hs | ⟨en, _, hen⟩
        · subst hs; simp [is_class_decl_for]
        · by_cases hv : en.value = ""
          · rw [if_pos hv] at hen; exact Option.noConfusion hen
          · rw [if_neg hv] at hen
            injection hen with hen
            subst hen
            simp [is_class_decl_for]

/-- Pattern 003 emits no class declaration. -/
theorem no_class_003 (e : XsdElement) (n : String) :
    has_class_decl (transform_pattern_003 e) n = false := by
  rw [has_class_decl, List.any_eq_false]
  intro s hs
  cases h1 : e.anyFacet with
  | none => simp [transform_pattern_003, h1] at hs
  | some a =>
    by_cases hns : a.namespaceAttr.getD "##targetNamespace" = "##other"
    · simp [transform_pattern_003, h1, hns, pattern003_other_stmts] at hs
      rcases hs with hs | hs <;> (subst hs; simp [is_class_decl_for])
    · simp [transform_pattern_003, h1, hns, pattern003_target_stmts] at hs
      rcases hs with hs | hs <;> (subst hs; simp [is_class_decl_for])

/-- Pattern 004 emits no class declaration. -/
theorem no_class_004 (e : XsdElement) (n : String) :
    has_class_decl (transform_pattern_004 e) n = false := by
  rw [has_class_decl, List.any_eq_false]
  intro s hs
  cases h1 : truthy e.name with
  | none => simp [transform_pattern_004, h1] at hs
  | some name =>
    cases h2 : e.simpleContent with
    | none => simp [transform_pattern_004, h1, h2] at hs
    | some sc =>
      cases h3 : sc.ext with
      | none => simp [transform_pattern_004, h1, h2, h3] at hs
      | some ext =>
        cases h4 : truthy ext.base with
        | none => simp [transform_pattern_004, h1, h2, h3, h4] at hs
        | some base =>
          simp only [transform_pattern_004, h1, h2, h3, h4, List.mem_cons,
            List.mem_filterMap] at hs
          rcases hs with hs | ⟨a, _, ha⟩
          · subst hs; simp [is_class_decl_for]
          · cases h5 : truthy a.name with
            | none => rw [h5] at ha; cases truthy a.type <;> exact Option.noConfusion ha
            | some an =>
              cases h6 : truthy a.type with
              | none => rw [h5, h6] at ha; exact Option.noConfusion ha
              | some aty =>
                rw [h5, h6] at ha
                injection ha with ha
                subst ha
                simp [is_class_decl_for]

/-- Pattern 005 emits no class declaration. -/
theorem no_class_005 (e : XsdElement) (n : String) :
    has_class_decl (transform_pattern_005 e) n = false := by
  rw [has_class_decl, List.any_eq_false]
  intro s hs
  cases h1 : e.seqElems with
  | none => simp [transform_pattern_005, h1] at hs
  | some elems =>
    simp only [transform_pattern_005, h1, List.mem_filterMap] at hs
    obtain ⟨el, _, hel⟩ := hs
    cases h2 : truthy el.name with
    | none => rw [h2] at hel; cases truthy el.type <;> exact Option.noConfusion hel
    | some en =>
      cases h3 : truthy el.type with
      | none => rw [h2, h3] at hel; exact Option.noConfusion hel
      | some et =>
        rw [h2, h3] at hel
        injection hel with hel
        subst hel
        simp [is_class_decl_for]

/-- Pattern 008 emits nothing, hence no class declaration. -/
theorem no_class_008 (e : XsdElement) (n : String) :
    has_class_decl (transform_pattern_008 e) n = false := rfl

/-- A statement of the shared class block that declares a class for `n`
forces a superclass assertion for `n` inside the same block. -/
theorem class_with_parents_super (name label comment : String) (parents : List String)
    (n : String) (s : Stmt) (hs : s ∈ class_with_parents name label comment parents)
    (hc : is_class_decl_for n s = true) :
    has_super (class_with_parents name label comment parents) n = true := by
  by_cases hp : parents.isEmpty = true
  · unfold class_with_parents at hs ⊢
    rw [if_pos hp] at hs ⊢
    simp only [List.mem_singleton] at hs
    subst hs
    have hn : (name == n) = true := by simpa [is_class_decl_for] using hc
    simp [has_super, asserts_super_for, hn]
  · unfold class_with_parents at hs ⊢
    rw [if_neg hp] at hs ⊢
    simp only [List.mem_cons, List.mem_map] at hs
    rcases hs with hs | ⟨p, _, hs⟩
    · subst hs
      have hn : (name == n) = true := by simpa [is_class_decl_for] using hc
      cases hps : parents with
      | nil => rw [hps] at hp; exact absurd rfl hp
      | cons p0 ps =>
        simp [has_super, List.any_cons, asserts_super_for, hn]
    · subst hs
      simp [is_class_decl_for] at hc

/-- A sequence element statement of Pattern 006 is never a class
declaration. -/
theorem p006_elem_no_class (name : String) (el : ChildElem) (s : Stmt) (n : String)
    (h : p006_elem name el = some s) : is_class_decl_for n s = false := by
  cases h1 : truthy el.name with
  | none =>
    cases h2 : truthy el.type with
    | none => simp [p006_elem, h1, h2] at h
    | some et => simp [p006_elem, h1, h2] at h
  | some en =>
    cases h2 : truthy el.type with
    | none => simp [p006_elem, h1, h2] at h
    | some et =>
      simp only [p006_elem, h1, h2] at h
      split at h <;> (injection h with h; subst h; rfl)

/-- An attribute statement of Pattern 006 is never a class declaration. -/
theorem p006_attr_no_class (name : String) (a : AttrDecl) (s : Stmt) (n : String)
    (h : p006_attr name a = some s) : is_class_decl_for n s = false := by
  cases h1 : truthy a.name with
  | none => rw [p006_attr, h1] at h; cases truthy a.type <;> exact Option.noConfusion h
  | some an =>
    cases h2 : truthy a.type with
    | none => rw [p006_attr, h1, h2] at h; exact Option.noConfusion h
    | some aty =>
      rw [p006_attr, h1, h2] at h
      injection h with h
      subst h
      rfl

/-- An attribute statement of Pattern 009 is never a class declaration. -/
theorem p009_attr_no_class (name : String) (a : AttrDecl) (s : Stmt) (n : String)
    (h : p009_attr name a = some s) : is_class_decl_for n s = false := by
  cases h1 : truthy a.name with
  | none => rw [p009_attr, h1] at h; cases truthy a.type <;> exact Option.noConfusion h
  | some an =>
    cases h2 : truthy a.type with
    | none => rw [p009_attr, h1, h2] at h; exact Option.noConfusion h
    | some aty =>
      rw [p009_attr, h1, h2] at h
      injection h with h
      subst h
      rfl

/-- Pattern 006: any emitted class declaration for `n` comes with a
superclass assertion for `n`. -/
theorem class_super_006 (hd : List (String × List ContainedInfo)) (e : XsdElement)
    (n : String) (h : has_class_decl (transform_pattern_006 hd e) n = true) :
    has_super (transform_pattern_006 hd e) n = true := by
  cases ht : truthy e.name with
  | none => simp [transform_pattern_006, ht, has_class_decl] at h
  | some name =>
    rw [has_class_decl, List.any_eq_true] at h
    obtain ⟨s, hsmem, hsc⟩ := h
    simp only [transform_pattern_006, ht, List.mem_append] at hsmem
    rcases hsmem with (hs | hs) | hs
    · have h2 := class_with_parents_super name (quoteStr name)
        (format_comment_for_ttl (e.doc.getD ("Complex type: " ++ name)))
        (get_parent_types hd name) n s hs hsc
      rw [has_super, List.any_eq_true] at h2
      obtain ⟨s2, hs2mem, hs2⟩ := h2
      rw [has_super, List.any_eq_true]
      refine ⟨s2, ?_, hs2⟩
      simp only [transform_pattern_006, ht, List.mem_append]
      exact Or.inl (Or.inl hs2mem)
    · rw [List.mem_filterMap] at hs
      obtain ⟨el, _, hel⟩ := hs
      rw [p006_elem_no_class name el s n hel] at hsc
      exact Bool.noConfusion hsc
    · rw [List.mem_filterMap] at hs
      obtain ⟨a, _, ha⟩ := hs
      rw [p006_attr_no_class name a s n ha] at hsc
      exact Bool.noConfusion hsc

/-- Pattern 009: any emitted class declaration for `n` comes with a
superclass assertion for `n`. -/
theorem class_super_009 (hd : List (String × List ContainedInfo)) (e : XsdElement)
    (n : String) (h : has_class_decl (transform_pattern_009 hd e) n = true) :
    has_super (transform_pattern_009 hd e) n = true := by
  cases ht : truthy e.name with
  | none => simp [transform_pattern_009, ht, has_class_decl] at h
  | some name =>
    rw [has_class_decl, List.any_eq_true] at h
    obtain ⟨s, hsmem, hsc⟩ := h
    simp only [transform_pattern_009, ht, List.mem_append] at hsmem
    rcases hsmem with hs | hs
    · have h2 := class_with_parents_super name (quoteStr name)
        (format_comment_for_ttl (e.doc.getD ("Complex type: " ++ name)))
        (get_parent_types hd name) n s hs hsc
      rw [has_super, List.any_eq_true] at h2
      obtain ⟨s2, hs2mem, hs2⟩ := h2
      rw [has_super, List.any_eq_true]
      refine ⟨s2, ?_, hs2⟩
      simp only [transform_pattern_009, ht, List.mem_append]
      exact Or.inl hs2mem
    · rw [List.mem_filterMap] at hs
      obtain ⟨a, _, ha⟩ := hs
      rw [p009_attr_no_class name a s n ha] at hsc
      exact Bool.noConfusion hsc

/-- A statement of `emit_contained` that declares a class for `n` itself
asserts a superclass for `n` (the contained class carries its collection
inline). -/
theorem emit_contained_class_super (cti : List (String × TypeInfo)) (nm : String)
    (c : ContainedInfo) (n : String) (s : Stmt) (hs : s ∈ emit_contained cti nm c)
    (hc : is_class_decl_for n s = true) : asserts_super_for n s = true := by
  unfold emit_contained at hs
  by_cases h1 : extension_case c = true
  · rw [if_pos h1] at hs
    simp only [List.mem_singleton] at hs
    subst hs
    simp [is_class_decl_for] at hc
  · rw [if_neg h1] at hs
    by_cases h2 : (!(c.type == "") && is_owl_class_in cti c.type) = true
    · rw [if_pos h2] at hs
      simp only [List.mem_cons, List.mem_singleton] at hs
      rcases hs with hs | hs | hs
      · subst hs
        have hn : (c.name == n) = true := by simpa [is_class_decl_for] using hc
        simp [asserts_super_for, hn]
      · subst hs
        simp [is_class_decl_for] at hc
      · simp at hs
    · rw [if_neg h2] at hs
      simp only [List.mem_singleton] at hs
      subst hs
      simp [is_class_decl_for] at hc

/-- Pattern 007: any emitted class declaration for `n` comes with a
superclass assertion for `n`. -/
theorem class_super_007 (cti : List (String × TypeInfo))
    (hd : List (String × List ContainedInfo)) (e : XsdElement) (n : String)
    (h : has_class_decl (transform_pattern_007_new cti hd e).1 n = true) :
    has_super (transform_pattern_007_new cti hd e).1 n = true := by
  cases ht : truthy e.name with
  | none => simp [transform_pattern_007_new, ht, has_class_decl] at h
  | some name =>
    cases hl : lookupDict hd name with
    | none => simp [transform_pattern_007_new, ht, hl, has_class_decl] at h
    | some contained =>
      rw [has_class_decl, List.any_eq_true] at h
      obtain ⟨s, hsmem, hsc⟩ := h
      simp only [transform_pattern_007_new, ht, hl, List.mem_append] at hsmem
      rw [has_super, List.any_eq_true]
      rcases hsmem with hs | hs
      · have h2 := class_with_parents_super name (quoteStr name)
          (format_comment_for_ttl
            ("A collection containing multiple instances. " ++
              e.doc.getD ("Collection type: " ++ name)))
          (determine_collection_parents hd name) n s hs hsc
        rw [has_super, List.any_eq_true] at h2
        obtain ⟨s2, hs2mem, hs2⟩ := h2
        refine ⟨s2, ?_, hs2⟩
        simp only [transform_pattern_007_new, ht, hl, List.mem_append]
        exact Or.inl hs2mem
      · rw [List.mem_flatten] at hs
        obtain ⟨blk, hblk, hsblk⟩ := hs
        rw [List.mem_map] at hblk
        obtain ⟨c, hcmem, hblkeq⟩ := hblk
        subst hblkeq
        refine ⟨s, ?_, emit_contained_class_super cti name c n s hsblk hsc⟩
        simp only [transform_pattern_007_new, ht, hl, List.mem_append]
        right
        rw [List.mem_flatten]
        exact ⟨emit_contained cti name c, List.mem_map.mpr ⟨c, hcmem, rfl⟩, hsblk⟩

/-- One step of `get_parent_types` keeps the accumulator or appends the
fresh parent once. -/
theorem gpt_step_once (en : String) (pt : String × List ContainedInfo) (acc : List String) :
    gpt_step en acc pt = acc ∨ (pt.1 ∉ acc ∧ gpt_step en acc pt = acc ++ [pt.1]) := by
  unfold gpt_step
  refine foldl_add_once pt.1 _ ?_ pt.2 acc
  intro acc2 c
  by_cases hcond : ((c.name == en || c.type == en) && !(acc2.contains pt.1)) = true
  · right
    have hmem : pt.1 ∉ acc2 := by
      intro hin
      have hx : acc2.contains pt.1 = true := by simpa using hin
      rw [hx] at hcond
      simp at hcond
    exact ⟨hmem, by rw [if_pos hcond]⟩
  · left; rw [if_neg hcond]

/-- One step of `determine_collection_parents` keeps the accumulator or
appends the fresh parent once. -/
theorem dcp_step_once (cn : String) (pt : String × List ContainedInfo) (acc : List String) :
    dcp_step cn acc pt = acc ∨ (pt.1 ∉ acc ∧ dcp_step cn acc pt = acc ++ [pt.1]) := by
  unfold dcp_step
  refine foldl_add_once pt.1 _ ?_ pt.2 acc
  intro acc2 c
  by_cases h1 : (c.name == cn) = true
  · by_cases h2 : pt.1 ∈ acc2
    · left; simp [h1, h2]
    · right; exact ⟨h2, by simp [h1, h2]⟩
  · by_cases h3 : (!(c.type == "") && c.type == cn) = true
    · by_cases h2 : pt.1 ∈ acc2
      · left; simp [h1, h3, h2]
      · right; exact ⟨h2, by simp [h1, h3, h2]⟩
    · left; simp [h1, h3]

/-- The parent list computed for Patterns 006 and 009 has no duplicates. -/
theorem get_parent_types_nodup (hd : List (String × List ContainedInfo)) (en : String) :
    (get_parent_types hd en).Nodup := by
  unfold get_parent_types
  refine nodup_foldl_step _ ?_ hd [] List.nodup_nil
  intro acc pt
  rcases gpt_step_once en pt acc with h | ⟨hk, h⟩
  · exact Or.inl h
  · exact Or.inr ⟨pt.1, hk, h⟩

/-- The parent list computed for collections has no duplicates. -/
theorem determine_collection_parents_nodup (hd : List (String × List ContainedInfo))
    (cn : String) : (determine_collection_parents hd cn).Nodup := by
  unfold determine_collection_parents
  refine nodup_foldl_step _ ?_ hd [] List.nodup_nil
  intro acc pt
  rcases dcp_step_once cn pt acc with h | ⟨hk, h⟩
  · exact Or.inl h
  · exact Or.inr ⟨pt.1, hk, h⟩

/-- A parent subClassOf statement belongs to the shared class block when
the parent is in the parent list. -/
theorem class_with_parents_mem_parent (name label comment : String)
    (parents : List String) (p : String) (hp : p ∈ parents) :
    Stmt.subClassOf name ("mismo:" ++ p) ∈ class_with_parents name label comment parents := by
  unfold class_with_parents
  have hne : ¬(parents.isEmpty = true) := by
    cases parents with
    | nil => exact absurd hp (by simp)
    | cons q qs => simp
  rw [if_neg hne]
  exact List.mem_cons.mpr (Or.inr (List.mem_map.mpr ⟨p, hp, rfl⟩))

/-- The universal-root class declaration belongs to the shared class block
when the parent list is empty. -/
theorem class_with_parents_mem_thing (name label comment : String)
    (parents : List String) (hp : parents = []) :
    Stmt.classDecl name label comment (some "owl:Thing") ∈
      class_with_parents name label comment parents := by
  subst hp
  simp [class_with_parents]

set_option maxHeartbeats 1600000 in
/-- Claim C1: every class declaration emitted by the element transformer is
accompanied by a superclass assertion for the same subject; Patterns 006,
009 and 007 assert one subClassOf statement per distinct containment parent
and fall back to the universal root class when the parent set is empty; and
the consistency pass asserts a superclass for both members of every tracked
collection - element pair.  Hence no emitted class is left without a
superclass. -/
theorem c1_emitted_classes_have_superclasses :
    (∀ (cti : List (String × TypeInfo)) (hd : List (String × List ContainedInfo))
       (dis : Bool) (e : XsdElement) (n : String),
       has_class_decl (transform_element_new cti hd dis e).1 n = true →
       has_super (transform_element_new cti hd dis e).1 n = true)
  ∧ (∀ (hd : List (String × List ContainedInfo)) (e : XsdElement) (n : String),
       truthy e.name = some n →
       (∀ p ∈ get_parent_types hd n,
          has_super_ref (transform_pattern_006 hd e) n ("mismo:" ++ p) = true)
     ∧ (get_parent_types hd n = [] →
          has_super_ref (transform_pattern_006 hd e) n "owl:Thing" = true))
  ∧ (∀ (hd : List (String × List ContainedInfo)) (e : XsdElement) (n : String),
       truthy e.name = some n →
       (∀ p ∈ get_parent_types hd n,
          has_super_ref (transform_pattern_009 hd e) n ("mismo:" ++ p) = true)
     ∧ (get_parent_types hd n = [] →
          has_super_ref (transform_pattern_009 hd e) n "owl:Thing" = true))
  ∧ (∀ (cti : List (String × TypeInfo)) (hd : List (String × List ContainedInfo))
       (e : XsdElement) (n : String) (cs : List ContainedInfo),
       truthy e.name = some n → lookupDict hd n = some cs →
       (∀ p ∈ determine_collection_parents hd n,
          has_super_ref (transform_pattern_007_new cti hd e).1 n ("mismo:" ++ p) = true)
     ∧ (determine_collection_parents hd n = [] →
          has_super_ref (transform_pattern_007_new cti hd e).1 n "owl:Thing" = true))
  ∧ (∀ (hd : List (String × List ContainedInfo)) (pending : List (String × String))
       (c el : String), (c, el) ∈ pending →
       has_super (ensure_hierarchy_consistency hd pending) c = true
     ∧ has_super (ensure_hierarchy_consistency hd pending) el = true)
  ∧ (∀ (hd : List (String × List ContainedInfo)) (n : String),
       (get_parent_types hd n).Nodup ∧ (determine_collection_parents hd n).Nodup) := by
  refine ⟨?_, ?_, ?_, ?_, ?_, ?_⟩
  · -- every emitted class declaration has a superclass assertion
    intro cti hd dis e n h
    simp only [transform_element_new] at h ⊢
    split_ifs at h ⊢ <;> (try dsimp only at h ⊢) <;>
      first
        | exact class_super_006 hd e n h
        | exact class_super_007 cti hd e n h
        | (rw [no_class_001] at h; exact Bool.noConfusion h)
        | (rw [no_class_001_1] at h; exact Bool.noConfusion h)
        | (rw [no_class_002] at h; exact Bool.noConfusion h)
        | (rw [no_class_003] at h; exact Bool.noConfusion h)
        | (rw [no_class_004] at h; exact Bool.noConfusion h)
        | (rw [no_class_005] at h; exact Bool.noConfusion h)
        | (rw [no_class_008] at h; exact Bool.noConfusion h)
        | exact Bool.noConfusion h
  · -- Pattern 006 parent detail
    intro hd e n ht
    constructor
    · intro p hp
      rw [has_super_ref, List.any_eq_true]
      refine ⟨Stmt.subClassOf n ("mismo:" ++ p), ?_, by simp [asserts_super_ref]⟩
      simp only [transform_pattern_006, ht, List.mem_append]
      exact Or.inl (Or.inl (class_with_parents_mem_parent _ _ _ _ p hp))
    · intro hpe
      rw [has_super_ref, List.any_eq_true]
      refine ⟨Stmt.classDecl n (quoteStr n)
        (format_comment_for_ttl (e.doc.getD ("Complex type: " ++ n))) (some "owl:Thing"),
        ?_, by simp [asserts_super_ref]⟩
      simp only [transform_pattern_006, ht, List.mem_append]
      exact Or.inl (Or.inl (class_with_parents_mem_thing _ _ _ _ hpe))
  · -- Pattern 009 parent detail
    intro hd e n ht
    constructor
    · intro p hp
      rw [has_super_ref, List.any_eq_true]
      refine ⟨Stmt.subClassOf n ("mismo:" ++ p), ?_, by simp [asserts_super_ref]⟩
      simp only [transform_pattern_009, ht, List.mem_append]
      exact Or.inl (class_with_parents_mem_parent _ _ _ _ p hp)
    · intro hpe
      rw [has_super_ref, List.any_eq_true]
      refine ⟨Stmt.classDecl n (quoteStr n)
        (format_comment_for_ttl (e.doc.getD ("Complex type: " ++ n))) (some "owl:Thing"),
        ?_, by simp [asserts_super_ref]⟩
      simp only [transform_pattern_009, ht, List.mem_append]
      exact Or.inl (class_with_parents_mem_thing _ _ _ _ hpe)
  · -- Pattern 007 parent detail
    intro cti hd e n cs ht hl
    constructor
    · intro p hp
      rw [has_super_ref, List.any_eq_true]
      refine ⟨Stmt.subClassOf n ("mismo:" ++ p), ?_, by simp [asserts_super_ref]⟩
      simp only [transform_pattern_007_new, ht, hl, List.mem_append]
      exact Or.inl (class_with_parents_mem_parent _ _ _ _ p hp)
    · intro hpe
      rw [has_super_ref, List.any_eq_true]
      refine ⟨Stmt.classDecl n (quoteStr n)
        (format_comment_for_ttl
          ("A collection containing multiple instances. " ++ e.doc.getD ("Collection type: " ++ n)))
        (some "owl:Thing"), ?_, by simp [asserts_super_ref]⟩
      simp only [transform_pattern_007_new, ht, hl, List.mem_append]
      exact Or.inl (class_with_parents_mem_thing _ _ _ _ hpe)
  · -- consistency pass
    intro hd pending c el hmem
    have hblk : (Stmt.subClassOf el ("mismo:" ++ c)
        :: (let parents := determine_collection_parents hd c
            if parents.isEmpty then [Stmt.subClassOf c "owl:Thing"]
            else parents.map fun p => Stmt.subClassOf c ("mismo:" ++ p)))
        ∈ pending.map fun pr =>
          Stmt.subClassOf pr.2 ("mismo:" ++ pr.1)
          :: (let parents := determine_collection_parents hd pr.1
              if parents.isEmpty then [Stmt.subClassOf pr.1 "owl:Thing"]
              else parents.map fun p => Stmt.subClassOf pr.1 ("mismo:" ++ p)) :=
      List.mem_map.mpr ⟨(c, el), hmem, rfl⟩
    constructor
    · rw [has_super, List.any_eq_true]
      cases hpar : determine_collection_parents hd c with
      | nil =>
        refine ⟨Stmt.subClassOf c "owl:Thing", ?_, by simp [asserts_super_for]⟩
        rw [ensure_hierarchy_consistency, List.mem_flatten]
        refine ⟨_, hblk, ?_⟩
        simp [hpar]
      | cons p0 ps =>
        refine ⟨Stmt.subClassOf c ("mismo:" ++ p0), ?_, by simp [asserts_super_for]⟩
        rw [ensure_hierarchy_consistency, List.mem_flatten]
        refine ⟨_, hblk, ?_⟩
        simp [hpar]
    · rw [has_super, List.any_eq_true]
      refine ⟨Stmt.subClassOf el ("mismo:" ++ c), ?_, by simp [asserts_super_for]⟩
      rw [ensure_hierarchy_consistency, List.mem_flatten]
      exact ⟨_, hblk, List.mem_cons_self _ _⟩
  · -- the parent lists are duplicate free
    intro hd n
    exact ⟨get_parent_types_nodup hd n, determine_collection_parents_nodup hd n⟩

/-- Witness for C1 at a concrete parentless complex type and a concrete
tracked pair. -/
theorem c1_witness :
    has_super (transform_element_new [] [] false c1Elem).1 "PARTY" = true ∧
    has_super (ensure_hierarchy_consistency [] [("DEALS", "DEAL")]) "DEALS" = true := by
  constructor
  · exact c1_emitted_classes_have_superclasses.1 [] [] false c1Elem "PARTY" (by decide)
  · exact (c1_emitted_classes_have_superclasses.2.2.2.2.1 [] [("DEALS", "DEAL")]
      "DEALS" "DEAL" (by decide)).1

/-- Any statement emitted for a hierarchy entry of a collection is part of
the Pattern 007 output of the collection. -/
theorem mem_007_of_mem_emit (cti : List (String × TypeInfo))
    (hd : List (String × List ContainedInfo)) (e : XsdElement) (n : String)
    (cs : List ContainedInfo) (c : ContainedInfo) (s : Stmt)
    (ht : truthy e.name = some n) (hl : lookupDict hd n = some cs) (hc : c ∈ cs)
    (hs : s ∈ emit_contained cti n c) : s ∈ (transform_pattern_007_new cti hd e).1 := by
  simp only [transform_pattern_007_new, ht, hl, List.mem_append]
  right
  rw [List.mem_flatten]
  exact ⟨emit_contained cti n c, List.mem_map.mpr ⟨c, hc, rfl⟩, hs⟩

/-- Claim C3 counterexample: in a schema whose hierarchy has an
identifiable root container (MESSAGE, with six outgoing containment
edges), the never-contained collection ORPHANS with an empty parent set is
still emitted with the universal root class owl:Thing as its superclass,
not with the root container — the root-adoption step of the source is
commented out and never runs. -/
theorem c3_counterexample :
    determine_collection_parents hdC3 "ORPHANS" = []
  ∧ is_top_level_collection hdC3 "ORPHANS" = true
  ∧ find_root_container hdC3 = some "MESSAGE"
  ∧ find_pattern_type ctiC3 orphansElemC3 = "Pattern 007"
  ∧ has_super_ref outC3 "ORPHANS" "owl:Thing" = true
  ∧ has_super_ref outC3 "ORPHANS" "mismo:MESSAGE" = false := by
  decide

/-- Claim C3 (amended): no root-container adoption occurs — whenever the
containment-parent set of a class-producing type is empty, the emitters of
Patterns 006, 009 and 007 fall back directly to the universal root class
owl:Thing, even when a root container could be identified. -/
theorem c3_root_adoption_disabled :
    (∀ (hd : List (String × List ContainedInfo)) (e : XsdElement) (n : String),
       truthy e.name = some n → get_parent_types hd n = [] →
       has_super_ref (transform_pattern_006 hd e) n "owl:Thing" = true)
  ∧ (∀ (hd : List (String × List ContainedInfo)) (e : XsdElement) (n : String),
       truthy e.name = some n → get_parent_types hd n = [] →
       has_super_ref (transform_pattern_009 hd e) n "owl:Thing" = true)
  ∧ (∀ (cti : List (String × TypeInfo)) (hd : List (String × List ContainedInfo))
       (e : XsdElement) (n : String) (cs : List ContainedInfo),
       truthy e.name = some n → lookupDict hd n = some cs →
       determine_collection_parents hd n = [] →
       has_super_ref (transform_pattern_007_new cti hd e).1 n "owl:Thing" = true) := by
  refine ⟨?_, ?_, ?_⟩
  · intro hd e n ht hpe
    rw [has_super_ref, List.any_eq_true]
    refine ⟨Stmt.classDecl n (quoteStr n)
      (format_comment_for_ttl (e.doc.getD ("Complex type: " ++ n))) (some "owl:Thing"),
      ?_, by simp [asserts_super_ref]⟩
    simp only [transform_pattern_006, ht, List.mem_append]
    exact Or.inl (Or.inl (class_with_parents_mem_thing _ _ _ _ hpe))
  · intro hd e n ht hpe
    rw [has_super_ref, List.any_eq_true]
    refine ⟨Stmt.classDecl n (quoteStr n)
      (format_comment_for_ttl (e.doc.getD ("Complex type: " ++ n))) (some "owl:Thing"),
      ?_, by simp [asserts_super_ref]⟩
    simp only [transform_pattern_009, ht, List.mem_append]
    exact Or.inl (class_with_parents_mem_thing _ _ _ _ hpe)
  · intro cti hd e n cs ht hl hpe
    rw [has_super_ref, List.any_eq_true]
    refine ⟨Stmt.classDecl n (quoteStr n)
      (format_comment_for_ttl
        ("A collection containing multiple instances. " ++ e.doc.getD ("Collection type: " ++ n)))
      (some "owl:Thing"), ?_, by simp [asserts_super_ref]⟩
    simp only [transform_pattern_007_new, ht, hl, List.mem_append]
    exact Or.inl (class_with_parents_mem_thing _ _ _ _ hpe)

/-- Witness for the amended C3 at a concrete parentless complex type. -/
theorem c3_witness :
    has_super_ref (transform_pattern_006 [] soloElemC3) "SOLO" "owl:Thing" = true :=
  c3_root_adoption_disabled.1 [] soloElemC3 "SOLO" (by decide) (by decide)

/-- Claim C4 counterexample: BORROWERS is classified Collection and its
only contained reference BORROWER is bounded (maxOccurs 1), yet the
emitter produces the contained-element subclass and the containsBORROWER
membership property for it and no datatype property at all — bounded
contained references are not emitted as ordinary datatype properties. -/
theorem c4_counterexample :
    find_pattern_type ctiC4 borrowersElemC4 = "Pattern 007"
  ∧ lookupDict hdC4 "BORROWERS" =
      some [{ name := "BORROWER", type := "BORROWER", max_occurs := "1" }]
  ∧ has_class_decl outC4 "BORROWER" = true
  ∧ outC4.any (is_contains_prop_for "containsBORROWER") = true
  ∧ outC4.any (is_datatype_prop_for "BORROWER") = false := by
  decide

/-- Claim C4 (amended): the Pattern 007 emitter processes every contained
reference of a collection uniformly, ignoring the declared multiplicity:
each hierarchy entry whose type is a registered class-like type (and which
is not the EXTENSION special case) is emitted as a contained-element class
under the collection plus a contains-X membership property, never as a
datatype property, whether its multiplicity is bounded or unbounded. -/
theorem c4_contained_class_regardless_of_multiplicity :
    ∀ (cti : List (String × TypeInfo)) (hd : List (String × List ContainedInfo))
      (e : XsdElement) (n : String) (cs : List ContainedInfo) (c : ContainedInfo),
      truthy e.name = some n → lookupDict hd n = some cs → c ∈ cs →
      extension_case c = false →
      (!(c.type == "") && is_owl_class_in cti c.type) = true →
      Stmt.classDecl c.name (quoteStr c.name)
          (format_comment_for_ttl
            ("Individual " ++ c.name ++ " element contained in " ++ n ++ " collection"))
          (some ("mismo:" ++ n)) ∈ (transform_pattern_007_new cti hd e).1
    ∧ Stmt.containsProp ("contains" ++ c.name) (quoteStr ("contains " ++ c.name))
          (format_comment_for_ttl
            ("Relates " ++ n ++ " to individual " ++ c.name ++ " instances"))
          n c.name ∈ (transform_pattern_007_new cti hd e).1
    ∧ (∀ s ∈ emit_contained cti n c, is_datatype_prop s = false) := by
  intro cti hd e n cs c ht hl hc hext howl
  have hemit : emit_contained cti n c =
      [Stmt.classDecl c.name (quoteStr c.name)
        (format_comment_for_ttl
          ("Individual " ++ c.name ++ " element contained in " ++ n ++ " collection"))
        (some ("mismo:" ++ n)),
       Stmt.containsProp ("contains" ++ c.name) (quoteStr ("contains " ++ c.name))
        (format_comment_for_ttl
          ("Relates " ++ n ++ " to individual " ++ c.name ++ " instances"))
        n c.name] := by
    unfold emit_contained
    rw [if_neg (by simp [hext]), if_pos howl]
  refine ⟨?_, ?_, ?_⟩
  · exact mem_007_of_mem_emit cti hd e n cs c _ ht hl hc (by rw [hemit]; simp)
  · exact mem_007_of_mem_emit cti hd e n cs c _ ht hl hc (by rw [hemit]; simp)
  · intro s hs
    rw [hemit] at hs
    simp only [List.mem_cons, List.not_mem_nil, or_false] at hs
    rcases hs with hs | hs
    · subst hs; rfl
    · subst hs; rfl

/-- Witness for the amended C4 at the bounded BORROWER entry. -/
theorem c4_witness :
    Stmt.classDecl "BORROWER" (quoteStr "BORROWER")
      (format_comment_for_ttl "Individual BORROWER element contained in BORROWERS collection")
      (some "mismo:BORROWERS") ∈ outC4 :=
  (c4_contained_class_regardless_of_multiplicity ctiC4 hdC4 borrowersElemC4 "BORROWERS"
    [{ name := "BORROWER", type := "BORROWER", max_occurs := "1" }]
    { name := "BORROWER", type := "BORROWER", max_occurs := "1" }
    (by decide) (by decide) (by decide) (by decide) (by decide)).1

/-- Claim C5 counterexample: BORROWERS is classified Collection and has an
unbounded containment edge for the element EXTENSION, whose type
BORROWERS_EXTENSION is class-like in the registry — yet the output has no
class declaration for EXTENSION and no containsEXTENSION membership
property (the entry is special-cased to a hasExtension object property),
while the ordinary unbounded BORROWER entry does get its membership
property. -/
theorem c5_counterexample :
    find_pattern_type ctiC5 borrowersElemC5 = "Pattern 007"
  ∧ ({ name := "EXTENSION", type := "BORROWERS_EXTENSION", max_occurs := "unbounded" }
      : ContainedInfo) ∈ (lookupDict hdC5 "BORROWERS").getD []
  ∧ is_owl_class_in ctiC5 "BORROWERS_EXTENSION" = true
  ∧ has_class_decl outC5 "EXTENSION" = false
  ∧ outC5.any (is_contains_prop_for "containsEXTENSION") = false
  ∧ outC5.any (is_contains_prop_for "containsBORROWER") = true := by
  decide

/-- Claim C5 (amended): for every unbounded containment edge of a
collection whose element type is a registered class-like type, the output
contains the contained-element class (a subclass of the collection) and
the contains-X membership property with domain the collection and range
the element — except when the element is named EXTENSION with a type
ending in the extension suffix, in which case the entry instead yields the
hasExtension object property (domain the collection, range owl:Thing) and
no contained class. -/
theorem c5_unbounded_contained_emission :
    ∀ (cti : List (String × TypeInfo)) (hd : List (String × List ContainedInfo))
      (e : XsdElement) (n : String) (cs : List ContainedInfo) (c : ContainedInfo),
      truthy e.name = some n → lookupDict hd n = some cs → c ∈ cs →
      c.max_occurs = "unbounded" →
      (!(c.type == "") && is_owl_class_in cti c.type) = true →
      (extension_case c = false →
        Stmt.classDecl c.name (quoteStr c.name)
            (format_comment_for_ttl
              ("Individual " ++ c.name ++ " element contained in " ++ n ++ " collection"))
            (some ("mismo:" ++ n)) ∈ (transform_pattern_007_new cti hd e).1
      ∧ Stmt.containsProp ("contains" ++ c.name) (quoteStr ("contains " ++ c.name))
            (format_comment_for_ttl
              ("Relates " ++ n ++ " to individual " ++ c.name ++ " instances"))
            n c.name ∈ (transform_pattern_007_new cti hd e).1)
    ∧ (extension_case c = true →
        Stmt.objectProp "hasExtension" (format_comment_for_ttl "has extension")
          (format_comment_for_ttl
            ("Property representing the " ++ c.name ++ " element of type " ++ c.type))
          (some n) "owl:Thing" ∈ (transform_pattern_007_new cti hd e).1) := by
  intro cti hd e n cs c ht hl hc _ howl
  constructor
  · intro hext
    have hemit : emit_contained cti n c =
        [Stmt.classDecl c.name (quoteStr c.name)
          (format_comment_for_ttl
            ("Individual " ++ c.name ++ " element contained in " ++ n ++ " collection"))
          (some ("mismo:" ++ n)),
         Stmt.containsProp ("contains" ++ c.name) (quoteStr ("contains " ++ c.name))
          (format_comment_for_ttl
            ("Relates " ++ n ++ " to individual " ++ c.name ++ " instances"))
          n c.name] := by
      unfold emit_contained
      rw [if_neg (by simp [hext]), if_pos howl]
    constructor
    · exact mem_007_of_mem_emit cti hd e n cs c _ ht hl hc (by rw [hemit]; simp)
    · exact mem_007_of_mem_emit cti hd e n cs c _ ht hl hc (by rw [hemit]; simp)
  · intro hext
    have hemit : emit_contained cti n c =
        [Stmt.objectProp "hasExtension" (format_comment_for_ttl "has extension")
          (format_comment_for_ttl
            ("Property representing the " ++ c.name ++ " element of type " ++ c.type))
          (some n) "owl:Thing"] := by
      unfold emit_contained
      rw [if_pos hext]
    exact mem_007_of_mem_emit cti hd e n cs c _ ht hl hc (by rw [hemit]; simp)

/-- Witness for the amended C5 at the unbounded BORROWER entry. -/
theorem c5_witness :
    Stmt.containsProp "containsBORROWER" (quoteStr "contains BORROWER")
      (format_comment_for_ttl "Relates BORROWERS to individual BORROWER instances")
      "BORROWERS" "BORROWER" ∈ outC5 :=
  ((c5_unbounded_contained_emission ctiC5 hdC5 borrowersElemC5 "BORROWERS"
    [{ name := "BORROWER", type := "BORROWER", max_occurs := "unbounded" },
     { name := "EXTENSION", type := "BORROWERS_EXTENSION", max_occurs := "unbounded" }]
    { name := "BORROWER", type := "BORROWER", max_occurs := "unbounded" }
    (by decide) (by decide) (by decide) (by decide) (by decide)).1 (by decide)).2

/-- A filterMap that guards only on a nonempty value collapses to a map
when every value is nonempty. -/
theorem filterMap_if_eq_map (l : List EnumFacet) (g : EnumFacet → Stmt)
    (h : ∀ en ∈ l, en.value ≠ "") :
    (l.filterMap fun en => if en.value = "" then none else some (g en)) = l.map g := by
  induction l with
  | nil => rfl
  | cons a t ih =>
    have ha : ¬(a.value = "") := h a (List.mem_cons_self a t)
    simp only [List.filterMap_cons, if_neg ha, List.map_cons]
    rw [ih fun en hen => h en (List.mem_cons_of_mem a hen)]

/-- Claim C6: an Enumeration-pattern simple type with a restriction base
and enumeration values produces exactly one base datatype declaration
subordinate to the base, followed by one property declaration per
enumeration value, each labeled with the value and each subordinate (via
rdfs:subPropertyOf) to the base datatype — `1 + n` statements in total. -/
theorem c6_enumeration_counts :
    ∀ (e : XsdElement) (n : String) (r : RestrictionInfo) (b : String),
      truthy e.name = some n → e.restrictionFacet = some r → truthy r.base = some b →
      (∀ en ∈ r.enums, en.value ≠ "") →
      transform_pattern_002 e =
        Stmt.datatypeDecl n (quoteStr n)
          (some (format_comment_for_ttl ("Base datatype for " ++ n ++ " enumerations")))
          [format_type_reference b]
        :: r.enums.map (fun en =>
            Stmt.enumProp en.value (quoteStr en.value)
              (format_comment_for_ttl (en.doc.getD ("Enumeration value: " ++ en.value))) n)
    ∧ (transform_pattern_002 e).length = 1 + r.enums.length := by
  intro e n r b ht hr hb hv
  have heq : transform_pattern_002 e =
      Stmt.datatypeDecl n (quoteStr n)
        (some (format_comment_for_ttl ("Base datatype for " ++ n ++ " enumerations")))
        [format_type_reference b]
      :: r.enums.map (fun en =>
          Stmt.enumProp en.value (quoteStr en.value)
            (format_comment_for_ttl (en.doc.getD ("Enumeration value: " ++ en.value))) n) := by
    simp only [transform_pattern_002, ht, hr, hb]
    rw [filterMap_if_eq_map r.enums
      (fun en => Stmt.enumProp en.value (quoteStr en.value)
        (format_comment_for_ttl (en.doc.getD ("Enumeration value: " ++ en.value))) n) hv]
  exact ⟨heq, by rw [heq]; simp [Nat.add_comm]⟩

/-- Witness for C6 at Scenario A (LOAN_STATUS_TYPE with Active and
Closed). -/
theorem c6_witness :
    (transform_pattern_002 loanStatusElem).length = 1 + lsRestriction.enums.length :=
  (c6_enumeration_counts loanStatusElem "LOAN_STATUS_TYPE" lsRestriction "xsd:string"
    (by decide) rfl (by decide) (by decide)).2

/-- Claim C7: a type classified AnyWildcard produces no class declaration
at all; its output is exactly two statements — one generic datatype
property for literal wildcard content followed by one generic object
property for structured wildcard content — chosen by the wildcard
namespace, and the two namespace variants differ. -/
theorem c7_anywildcard_no_class :
    ∀ (cti : List (String × TypeInfo)) (e : XsdElement),
      find_pattern_type cti e = "Pattern 003" →
      (∀ n, has_class_decl (transform_pattern_003 e) n = false)
    ∧ (transform_pattern_003 e).length = 2
    ∧ (∃ a, e.anyFacet = some a ∧
        transform_pattern_003 e =
          (if a.namespaceAttr.getD "##targetNamespace" = "##other" then pattern003_other_stmts
           else pattern003_target_stmts))
    ∧ pattern003_other_stmts ≠ pattern003_target_stmts
    ∧ (∃ s1 s2, transform_pattern_003 e = [s1, s2] ∧
        is_datatype_prop s1 = true ∧ is_object_prop s2 = true) := by
  intro cti e hf
  have hany : ∃ a, e.anyFacet = some a := by
    cases htag : e.tag with
    | simpleType =>
      simp only [find_pattern_type, htag] at hf
      split_ifs at hf <;> exact absurd hf (by decide)
    | complexType =>
      simp only [find_pattern_type, htag] at hf
      split_ifs at hf with h1 h2 h3 h4 h5
      · rcases Option.isSome_iff_exists.mp h1 with ⟨a, ha⟩
        exact ⟨a, ha⟩
      all_goals exact absurd hf (by decide)
    | other =>
      simp only [find_pattern_type, htag] at hf
      split_ifs at hf <;> exact absurd hf (by decide)
  obtain ⟨a, ha⟩ := hany
  refine ⟨fun n => no_class_003 e n, ?_, ⟨a, ha, ?_⟩, by decide, ?_⟩
  · by_cases hns : a.namespaceAttr.getD "##targetNamespace" = "##other"
    · simp [transform_pattern_003, ha, hns, pattern003_other_stmts]
    · simp [transform_pattern_003, ha, hns, pattern003_target_stmts]
  · simp only [transform_pattern_003, ha]
  · by_cases hns : a.namespaceAttr.getD "##targetNamespace" = "##other"
    · refine ⟨Stmt.datatypeProp "hasOtherNamespaceElementContent"
        (format_comment_for_ttl "has other namespace element content")
        (format_comment_for_ttl
          "Property that holds the string content of any element from other namespaces")
        none "xsd:string",
        Stmt.objectProp "hasOtherNamespaceElement"
          (format_comment_for_ttl "has other namespace element")
          (format_comment_for_ttl
            "Property representing complex elements that allows any elements from other namespaces (namespace=\x27##other\x27)")
          none "owl:Thing", ?_, rfl, rfl⟩
      simp [transform_pattern_003, ha, hns, pattern003_other_stmts]
    · refine ⟨Stmt.datatypeProp "hasAnyElementContent"
        (format_comment_for_ttl "has any element content")
        (format_comment_for_ttl
          "Property that holds the string content of any element from the target namespace")
        none "xsd:string",
        Stmt.objectProp "hasAnyElement"
          (format_comment_for_ttl "has any element")
          (format_comment_for_ttl
            "Property representing complex elements that allows any elements from the target namespace")
          none "owl:Thing", ?_, rfl, rfl⟩
      simp [transform_pattern_003, ha, hns, pattern003_target_stmts]

/-- Witness for C7 at a concrete target-namespace wildcard type. -/
theorem c7_witness :
    has_class_decl (transform_pattern_003 anyBaseElem) "MISMO_BASE" = false ∧
    (transform_pattern_003 anyBaseElem).length = 2 := by
  have h := c7_anywildcard_no_class [] anyBaseElem (by decide)
  exact ⟨h.1 "MISMO_BASE", h.2.1⟩

/-- Claim C10 counterexample: with two schema elements both named FOO, the
first producing no statements (a simple type without a restriction node)
and the second producing one, the run emits exactly one block for FOO —
but it is the block of the second occurrence, because a name is recorded
in the transformed set only when its transformation yields statements. -/
theorem c10_counterexample :
    (transform_element_new [] [] false fooEmptyElem).1 = []
  ∧ (processElements [] [] false [fooEmptyElem, fooFullElem] [] []).1 =
      [("FOO", (transform_element_new [] [] false fooFullElem).1)]
  ∧ (transform_element_new [] [] false fooFullElem).1 ≠ [] := by
  decide

/-- Claim C10 (amended): once a name is recorded in the transformed set,
later elements with that name contribute no block (no emitted block has a name that
lies in the initial set), and a duplicated name yields at most one block
overall (the emitted block names are duplicate free) — the surviving block
being that of the first occurrence whose transformation produces any
statements, not necessarily the first occurrence. -/
theorem c10_at_most_one_block :
    ∀ (cti : List (String × TypeInfo)) (hd : List (String × List ContainedInfo))
      (dis : Bool) (es : List XsdElement) (tr : List String)
      (pend : List (String × String)),
      ((processElements cti hd dis es tr pend).1.map Prod.fst).Nodup
    ∧ (∀ b ∈ (processElements cti hd dis es tr pend).1, b.1 ∉ tr) := by
  intro cti hd dis es
  induction es with
  | nil =>
    intro tr pend
    exact ⟨by simp [processElements], fun b hb => absurd hb (by simp [processElements])⟩
  | cons e rest ih =>
    intro tr pend
    cases ht : truthy e.name with
    | none =>
      have hstep : processElements cti hd dis (e :: rest) tr pend =
          processElements cti hd dis rest tr pend := by
        simp only [processElements, ht]
      rw [hstep]
      exact ih tr pend
    | some n =>
      by_cases hc : tr.contains n = true
      · have hstep : processElements cti hd dis (e :: rest) tr pend =
            processElements cti hd dis rest tr pend := by
          simp only [processElements, ht]
          rw [if_pos hc]
        rw [hstep]
        exact ih tr pend
      · by_cases he : (transform_element_new cti hd dis e).1.isEmpty = true
        · have hstep : processElements cti hd dis (e :: rest) tr pend =
              processElements cti hd dis rest tr
                (pend ++ (transform_element_new cti hd dis e).2) := by
            simp only [processElements, ht]
            rw [if_neg hc, if_pos he]
          rw [hstep]
          exact ih tr (pend ++ (transform_element_new cti hd dis e).2)
        · have hrec := ih (tr ++ [n]) (pend ++ (transform_element_new cti hd dis e).2)
          have hstep : processElements cti hd dis (e :: rest) tr pend =
              ((n, (transform_element_new cti hd dis e).1)
                :: (processElements cti hd dis rest (tr ++ [n])
                      (pend ++ (transform_element_new cti hd dis e).2)).1,
               (processElements cti hd dis rest (tr ++ [n])
                  (pend ++ (transform_element_new cti hd dis e).2)).2) := by
            simp only [processElements, ht]
            rw [if_neg hc, if_neg he]
          rw [hstep]
          constructor
          · simp only [List.map_cons, List.nodup_cons]
            refine ⟨?_, hrec.1⟩
            intro hmem
            rw [List.mem_map] at hmem
            obtain ⟨b, hb, hbn⟩ := hmem
            have hb2 := hrec.2 b hb
            rw [hbn] at hb2
            exact hb2 (by simp)
          · intro b hb
            rcases List.mem_cons.mp hb with hb | hb
            · subst hb
              simpa using hc
            · intro hbtr
              exact (hrec.2 b hb) (List.mem_append_left _ hbtr)

/-- Witness for the amended C10: a block emitted for FOO never carries a
name from the initial transformed set. -/
theorem c10_witness :
    ("FOO", (transform_element_new [] [] false c10WElem).1).1 ∉ ["BAR"] :=
  (c10_at_most_one_block [] [] false [c10WElem] ["BAR"] []).2
    ("FOO", (transform_element_new [] [] false c10WElem).1) (by decide)
